import Mathlib

/-!
Verification development for the research-pipeline coordinator:
a shallow embedding, in Lean 4, of the three services

* `src/services/enhanced_search_coordinator.py` (concurrent multi-source search aggregator),
* `src/services/super_orchestrator - Copia.py` (dependency-ordered orchestration engine
  with recursion guard, escalation and emergency consolidation),
* `src/services/mcp_sequential_thinking_manager.py` (sequential-thinking process tracker),

together with theorems settling the specification's claims about them.

Modelling conventions:
* Python dict values are modelled by the inductive `PyVal`; dicts whose key sets are
  dynamic (e.g. the `statistics` dict of the search envelope) are association lists so
  that a missing key (Python `KeyError`) is representable.
* Machine integers are `Nat`/`Int`; no overflow is relevant here.
* Fallible Python code is embedded as `Except String α`; external collaborators
  (provider adapters, the persistence layer `salvar_etapa`/`salvar_erro`, the three
  sub-orchestrators) are oracle fields of an environment record, each returning
  `Except String α`: `.error e` models the collaborator raising an exception.
* Wall-clock times and timestamps are opaque data supplied by the environment.
-/

/-! ## Search coordinator: data model -/

/-- One normalized search-result item, as in the provider-adapter contract
(`{title, url, snippet, ...}`).  Only the shape matters to the aggregator:
it stores the result lists verbatim and otherwise uses only their lengths. -/
structure ResultItem where
  title : String
  url : String
  snippet : String
  deriving Repr, DecidableEq

/-- The dictionary returned by one provider task
(`_execute_exa_neural_search` / `_execute_google_keyword_search` /
`_execute_other_providers_search`): a result list, a success flag and an
optional error description.  The `provider`/`query`/`search_type` keys of the
Python dict carry no information used by the aggregation and are omitted. -/
structure ProviderResp where
  results : List ResultItem
  success : Bool
  error : Option String := none
  deriving Repr, DecidableEq

/-- Free-form context mapping (`context: Dict[str, Any]`) restricted to the
string fields the coordinator reads (`segmento`, `produto`). -/
abbrev Ctx := List (String × String)

/-- Python `context.get(key, '')`. -/
def ctxGet (ctx : Ctx) (k : String) : String :=
  match ctx.find? (fun p => p.1 = k) with
  | some p => p.2
  | none => ""

/-- The `statistics` sub-dictionary of the search envelope, as an association
list from key to number so that a missing key (Python `KeyError`) is
representable.  The two boolean entries `simultaneous_execution` and
`comprehensive_coverage` are constants never read back and are omitted. -/
abbrev Stats := List (String × Nat)

/-- Python `d[k] = v` on a dict: overwrite in place if the key exists,
append otherwise. -/
def statsSet (s : Stats) (k : String) (v : Nat) : Stats :=
  if s.any (fun p => p.1 = k) then
    s.map (fun p => if p.1 = k then (k, v) else p)
  else
    s ++ [(k, v)]

/-- Python `d[k]` on a dict, as an `Option`: `none` models `KeyError`. -/
def statsGet (s : Stats) (k : String) : Option Nat :=
  match s.find? (fun p => p.1 = k) with
  | some p => some p.2
  | none => none

/-! ## Search coordinator: query preparation (pure functions) -/

/-- `_generate_comprehensive_query_variations` (lines 283–335): the Query
Variation Generator.  Pure; builds seven categories of four derived query
strings each from the base query and the `segmento`/`produto` context fields
(missing fields interpolate as the empty string, the Python
`context.get(..., '')` default).  The source performs no input validation and
has no error path. -/
def generate_comprehensive_query_variations (base_query : String) (context : Ctx) :
    List (String × List String) :=
  let segmento := ctxGet context "segmento"
  let produto := ctxGet context "produto"
  [ ("exa_neural_queries",
      [ base_query ++ " insights análise neural semântica"
      , base_query ++ " tendências futuro oportunidades"
      , base_query ++ " estratégia inovação mercado"
      , "análise profunda " ++ segmento ++ " " ++ produto ++ " transformação digital" ])
  , ("google_keyword_queries",
      [ base_query ++ " dados estatísticas Brasil 2024"
      , base_query ++ " mercado brasileiro crescimento números"
      , base_query ++ " pesquisa IBGE dados oficiais"
      , "relatório " ++ segmento ++ " " ++ produto ++ " Brasil estatísticas" ])
  , ("deep_research_queries",
      [ "pesquisa acadêmica " ++ base_query ++ " universidades"
      , "estudos científicos " ++ segmento ++ " " ++ produto
      , "papers research " ++ base_query ++ " metodologia"
      , "dissertações teses " ++ segmento ++ " análise" ])
  , ("social_media_queries",
      [ base_query ++ " discussão redes sociais"
      , segmento ++ " " ++ produto ++ " opinião pública"
      , "debate " ++ base_query ++ " comunidades online"
      , "sentimento mercado " ++ segmento ++ " social media" ])
  , ("news_queries",
      [ base_query ++ " notícias recentes Brasil"
      , "últimas novidades " ++ segmento ++ " " ++ produto
      , "breaking news " ++ base_query ++ " mercado"
      , "jornalismo " ++ segmento ++ " tendências atuais" ])
  , ("competitor_queries",
      [ "concorrentes " ++ segmento ++ " " ++ produto ++ " análise"
      , "players mercado " ++ base_query ++ " competição"
      , "benchmark " ++ segmento ++ " líderes mercado"
      , "análise competitiva " ++ base_query ++ " Brasil" ])
  , ("trend_queries",
      [ "tendências " ++ base_query ++ " próximos anos"
      , "futuro " ++ segmento ++ " " ++ produto ++ " previsões"
      , "evolução mercado " ++ base_query ++ " 2024-2030"
      , "transformações " ++ segmento ++ " tecnologia" ]) ]

/-- `_prepare_exa_neural_query` (lines 268–281): the concept-biased query for
the Exa neural provider.  Note the name: this is the method the class
*defines*; `execute_simultaneous_distinct_search` instead calls an undefined
`_prepare_exa_neural_search` (see `execute_simultaneous_distinct_search`). -/
def prepare_exa_neural_query (base_query : String) (context : Ctx) : String :=
  let q := base_query ++ " insights análise profunda"
  let q := if ctxGet context "segmento" ≠ "" then
      q ++ " " ++ ctxGet context "segmento" ++ " tendências oportunidades"
    else q
  (q ++ " estratégia inovação futuro").trim

/-- `_prepare_google_keyword_query` (lines 337–350): the keyword-biased query
for the Google provider. -/
def prepare_google_keyword_query (base_query : String) (context : Ctx) : String :=
  let q := base_query ++ " dados estatísticas"
  let q := if ctxGet context "segmento" ≠ "" then
      q ++ " " ++ ctxGet context "segmento" ++ " mercado brasileiro"
    else q
  (q ++ " Brasil 2024 crescimento números").trim

/-! ## Search coordinator: the aggregation operation -/

/-- The mutable result envelope built by `execute_simultaneous_distinct_search`
(lines 87–114).  Fields that the initial dict does *not* contain — they are
only ever created by later assignments — are `Option`s (`other_results`,
the three `⟨provider⟩_error` keys, `error`).  `fallback_message_is_set`
records whether the `fallback_message` key was created (it is only ever set
to `None`). -/
structure SearchResults where
  base_query : String
  query_variations : List (String × List String)
  exa_results : List ResultItem := []
  google_results : List ResultItem := []
  deep_research_results : List ResultItem := []
  social_media_results : List ResultItem := []
  news_results : List ResultItem := []
  academic_results : List ResultItem := []
  competitor_results : List ResultItem := []
  trend_results : List ResultItem := []
  execution_mode : String := "MASSIVE_COMPREHENSIVE"
  statistics : Stats
  other_results : Option (List ResultItem) := none
  exa_error : Option String := none
  google_error : Option String := none
  other_error : Option String := none
  error : Option String := none
  fallback_message_is_set : Bool := false
  deriving Repr, DecidableEq

/-- The `statistics` dict as initialized at lines 99–113.  Note that there is
no `other_count` entry: the source initializes eight per-provider counters but
not the one for the `other` task, which is created only when that task's
result is merged (line 163). -/
def initialStats : Stats :=
  [ ("total_results", 0), ("total_sources", 0), ("exa_count", 0), ("google_count", 0)
  , ("deep_research_count", 0), ("social_count", 0), ("news_count", 0)
  , ("academic_count", 0), ("competitor_count", 0), ("trend_count", 0)
  , ("search_time", 0) ]

/-- The envelope as initialized at lines 87–114. -/
def initialSearchResults (base_query : String) (qv : List (String × List String)) :
    SearchResults :=
  { base_query := base_query, query_variations := qv, statistics := initialStats }

/-- The three provider tasks submitted to the thread pool (lines 127–138),
named as in the `futures` dict. -/
inductive Provider
  | exa
  | google
  | other
  deriving Repr, DecidableEq

/-- The environment of one aggregation call: provider availability flags
(read in `__init__`), the outcome that `future.result(timeout=120)` yields
for each submitted task (`.error` models the task raising or timing out —
the task bodies catch their own exceptions, so in the source this is the
`concurrent.futures` timeout), the persistence collaborator
(`salvar_etapa` / `salvar_erro`, keyed by stage name; `.error` models the
write raising), and the measured wall-clock time. -/
structure SearchEnv where
  exa_available : Bool
  google_available : Bool
  exa_outcome : Except String ProviderResp
  google_outcome : Except String ProviderResp
  other_outcome : Except String ProviderResp
  salvar_etapa : String → Except String Unit
  salvar_erro : String → Except String Unit
  elapsed : Nat

/-- The per-provider incremental-checkpoint stage name (lines 151, 159, 167). -/
def providerStage : Provider → String
  | .exa => "exa_neural_results"
  | .google => "google_keyword_results"
  | .other => "other_providers_results"

/-- The error-record stage name `f"busca_{provider_name}"` (line 171). -/
def providerErrorStage : Provider → String
  | .exa => "busca_exa"
  | .google => "busca_google"
  | .other => "busca_other"

/-- Merge one successful provider result into the envelope (lines 145–167,
before the checkpoint write): store the result list and its count. -/
def mergeProviderResult (sr : SearchResults) (p : Provider) (r : ProviderResp) :
    SearchResults :=
  match p with
  | .exa =>
      { sr with exa_results := r.results
              , statistics := statsSet sr.statistics "exa_count" r.results.length }
  | .google =>
      { sr with google_results := r.results
              , statistics := statsSet sr.statistics "google_count" r.results.length }
  | .other =>
      { sr with other_results := some r.results
              , statistics := statsSet sr.statistics "other_count" r.results.length }

/-- Record `search_results[f'{provider_name}_error'] = str(e)` (line 174). -/
def setProviderError (sr : SearchResults) (p : Provider) (e : String) : SearchResults :=
  match p with
  | .exa => { sr with exa_error := some e }
  | .google => { sr with google_error := some e }
  | .other => { sr with other_error := some e }

/-- The `except` clause of the collection loop (lines 169–175): the error is
recorded through `salvar_erro` — an unguarded call, so a failing error-record
write raises out of the loop — and then noted in the envelope. -/
def handleProviderException (env : SearchEnv) (sr : SearchResults) (p : Provider)
    (e : String) : Except String SearchResults :=
  match env.salvar_erro (providerErrorStage p) with
  | .error pe => .error pe
  | .ok _ => .ok (setProviderError sr p e)

/-- One iteration of the collection loop (lines 141–175) for provider `p`:
on a task result, merge it and write the incremental checkpoint (a checkpoint
failure is caught by the same `except`, after the merge already happened); on
a task exception/timeout, run the `except` clause. -/
def collectProviderResult (env : SearchEnv) (sr : SearchResults) (p : Provider)
    (outcome : Except String ProviderResp) : Except String SearchResults :=
  match outcome with
  | .ok r =>
      let sr1 := mergeProviderResult sr p r
      match env.salvar_etapa (providerStage p) with
      | .ok _ => .ok sr1
      | .error e => handleProviderException env sr1 p e
  | .error e => handleProviderException env sr p e

/-- The collection loop iterates the `futures` dict in insertion order:
`exa` (if available), `google` (if available), then `other` (always
submitted). -/
def collectAllProviders (env : SearchEnv) (sr : SearchResults) :
    Except String SearchResults :=
  match (if env.exa_available then collectProviderResult env sr .exa env.exa_outcome
         else .ok sr) with
  | .error e => .error e
  | .ok sr1 =>
    match (if env.google_available then
             collectProviderResult env sr1 .google env.google_outcome
           else .ok sr1) with
    | .error e => .error e
    | .ok sr2 => collectProviderResult env sr2 .other env.other_outcome

/-- Lines 177–198: final statistics.  `search_time` is stored, then
`total_results` is computed as
`statistics['exa_count'] + statistics['google_count'] + statistics['other_count']`
— each subscript can raise `KeyError` (modelled by the `none` branches; in
particular `other_count` does not exist unless the `other` task completed
normally).  If the total is zero the overall-failure signal is set (`error`
key plus `fallback_message = None`).  Finally the consolidated envelope is
checkpointed by another unguarded `salvar_etapa` and returned. -/
def finalizeSearchResults (env : SearchEnv) (sr : SearchResults) :
    Except String SearchResults :=
  let s1 := statsSet sr.statistics "search_time" env.elapsed
  match statsGet s1 "exa_count" with
  | none => .error "KeyError: exa_count"
  | some a =>
    match statsGet s1 "google_count" with
    | none => .error "KeyError: google_count"
    | some b =>
      match statsGet s1 "other_count" with
      | none => .error "KeyError: other_count"
      | some c =>
        let sr1 := { sr with statistics := statsSet s1 "total_results" (a + b + c) }
        let sr2 :=
          if a + b + c = 0 then
            { sr1 with error := some "Configure APIs de pesquisa para obter dados reais"
                     , fallback_message_is_set := true }
          else sr1
        match env.salvar_etapa "busca_simultanea_consolidada" with
        | .error e => .error e
        | .ok _ => .ok sr2

/-- `execute_simultaneous_distinct_search` (lines 64–198), embedded faithfully.
After the query variations are generated and the prepared-queries checkpoint
is written (line 78, unguarded), line 123 evaluates
`self._prepare_exa_neural_search(base_query, context)` — but the class defines
no method of that name (only `_prepare_exa_neural_query`), so every call
raises `AttributeError` at that point and the rest of the operation
(lines 124–198) is unreachable. -/
def execute_simultaneous_distinct_search (env : SearchEnv) (base_query : String)
    (context : Ctx) : Except String SearchResults :=
  let _qv := generate_comprehensive_query_variations base_query context
  match env.salvar_etapa "queries_massivas_simultaneas" with
  | .error e => .error e
  | .ok _ =>
      .error "AttributeError: _prepare_exa_neural_search"

/-- `execute_simultaneous_distinct_search` with the single undefined-name slip
at line 123 resolved to the evidently intended, defined method
`_prepare_exa_neural_query` — the rest of the body (lines 87–198) translated
verbatim.  This is the definition against which the claims about the
aggregation's envelope are settled, since on the unmodified source no call
returns at all. -/
def execute_simultaneous_distinct_search_resolved (env : SearchEnv)
    (base_query : String) (context : Ctx) : Except String SearchResults :=
  let qv := generate_comprehensive_query_variations base_query context
  match env.salvar_etapa "queries_massivas_simultaneas" with
  | .error e => .error e
  | .ok _ =>
    let _exa_query := prepare_exa_neural_query base_query context
    let _google_query := prepare_google_keyword_query base_query context
    match collectAllProviders env (initialSearchResults base_query qv) with
    | .error e => .error e
    | .ok sr => finalizeSearchResults env sr

/-! ## Statistics-dictionary lemmas -/

theorem find_set_mem (k : String) (v : Nat) :
    ∀ s : Stats, s.any (fun p => p.1 = k) = true →
      (s.map (fun p => if p.1 = k then (k, v) else p)).find? (fun p => p.1 = k)
        = some (k, v)
  | [], h => by simp at h
  | p :: t, h => by
    by_cases hp : p.1 = k
    · simp [hp, List.find?]
    · have ht : t.any (fun p => p.1 = k) = true := by
        simp only [List.any_cons, Bool.or_eq_true, decide_eq_true_eq] at h
        rcases h with h | h
        · exact absurd h hp
        · exact h
      simpa [hp, List.find?] using find_set_mem k v t ht


theorem find_set_ne (k k' : String) (v : Nat) (h : k' ≠ k) :
    ∀ s : Stats, (s.map (fun p => if p.1 = k then (k, v) else p)).find?
        (fun p => p.1 = k') = s.find? (fun p => p.1 = k')
  | [] => by simp
  | p :: t => by
    by_cases hp : p.1 = k
    · have h1 : ¬ (((k, v) : String × Nat).1 = k') := fun hk => h hk.symm
      have h2 : ¬ (p.1 = k') := fun hk => h (by rw [← hk]; exact hp)
      simp only [List.map_cons, if_pos hp]
      rw [List.find?_cons_of_neg _ (by simpa using h1),
          List.find?_cons_of_neg _ (by simpa using h2)]
      exact find_set_ne k k' v h t
    · simp only [List.map_cons, if_neg hp]
      by_cases hp' : p.1 = k'
      · rw [List.find?_cons_of_pos _ (by simpa using hp'),
            List.find?_cons_of_pos _ (by simpa using hp')]
      · rw [List.find?_cons_of_neg _ (by simpa using hp'),
            List.find?_cons_of_neg _ (by simpa using hp')]
        exact find_set_ne k k' v h t

theorem statsGet_statsSet_self (s : Stats) (k : String) (v : Nat) :
    statsGet (statsSet s k v) k = some v := by
  unfold statsSet statsGet
  by_cases h : s.any (fun p => p.1 = k)
  · rw [if_pos h, find_set_mem k v s h]
  · rw [if_neg h, List.find?_append]
    have hn : s.find? (fun p => decide (p.1 = k)) = none := by
      rw [List.find?_eq_none]
      intro x hx hdec
      exact h (List.any_eq_true.mpr ⟨x, hx, hdec⟩)
    rw [hn]
    simp [List.find?]

theorem statsGet_statsSet_ne (s : Stats) {k k' : String} (v : Nat) (h : k' ≠ k) :
    statsGet (statsSet s k v) k' = statsGet s k' := by
  unfold statsSet statsGet
  by_cases ha : s.any (fun p => p.1 = k)
  · rw [if_pos ha, find_set_ne k k' v h s]
  · rw [if_neg ha, List.find?_append]
    have h1 : (([(k, v)] : Stats).find? fun p => p.1 = k') = none := by
      rw [List.find?_eq_none]
      intro x hx
      simp only [List.mem_singleton] at hx
      subst hx
      simpa using fun hk => h hk.symm
    rw [h1]
    cases s.find? fun p => decide (p.1 = k') <;> rfl

/-- Combined rewrite for dict update/lookup. -/
theorem statsGet_statsSet (s : Stats) (k k' : String) (v : Nat) :
    statsGet (statsSet s k v) k' = if k' = k then some v else statsGet s k' := by
  by_cases h : k' = k
  · subst h
    rw [if_pos rfl]
    exact statsGet_statsSet_self s k' v
  · rw [if_neg h]
    exact statsGet_statsSet_ne s v h

/-! ## Search aggregation: envelope invariants -/

/-- Keys of the per-provider result counters recorded in the envelope's
`statistics` dict (the eight counters of lines 102–109 plus the
`other_count` created at line 163). -/
def perProviderCountKeys : List String :=
  [ "exa_count", "google_count", "other_count", "deep_research_count", "social_count"
  , "news_count", "academic_count", "competitor_count", "trend_count" ]

/-- Sum of the per-provider result counters in a `statistics` dict
(a missing counter contributes 0). -/
def perProviderCountSum (s : Stats) : Nat :=
  (perProviderCountKeys.map (fun k => (statsGet s k).getD 0)).sum

/-- Invariant maintained by the collection loop: the overall-failure key is
not yet set, and the six counters the loop never writes still hold their
initial 0. -/
def CollectInvariant (sr : SearchResults) : Prop :=
  sr.error = none ∧
  statsGet sr.statistics "deep_research_count" = some 0 ∧
  statsGet sr.statistics "social_count" = some 0 ∧
  statsGet sr.statistics "news_count" = some 0 ∧
  statsGet sr.statistics "academic_count" = some 0 ∧
  statsGet sr.statistics "competitor_count" = some 0 ∧
  statsGet sr.statistics "trend_count" = some 0

theorem setProviderError_fields (sr : SearchResults) (p : Provider) (e : String) :
    (setProviderError sr p e).statistics = sr.statistics ∧
    (setProviderError sr p e).error = sr.error := by
  cases p <;> exact ⟨rfl, rfl⟩

theorem handleProviderException_ok {env : SearchEnv} {sr : SearchResults}
    {p : Provider} {e : String} {sr' : SearchResults}
    (h : handleProviderException env sr p e = .ok sr') :
    sr'.statistics = sr.statistics ∧ sr'.error = sr.error := by
  unfold handleProviderException at h
  cases he : env.salvar_erro (providerErrorStage p) <;> rw [he] at h <;> simp at h
  rw [← h]
  exact setProviderError_fields sr p e


/-- The statistics key written when provider `p`'s task result is merged. -/
def providerCountKey : Provider → String
  | .exa => "exa_count"
  | .google => "google_count"
  | .other => "other_count"

theorem mergeProviderResult_fields (sr : SearchResults) (p : Provider)
    (r : ProviderResp) :
    (mergeProviderResult sr p r).statistics
        = statsSet sr.statistics (providerCountKey p) r.results.length ∧
    (mergeProviderResult sr p r).error = sr.error := by
  cases p <;> exact ⟨rfl, rfl⟩

theorem merged_invariant {sr : SearchResults} (p : Provider) (r : ProviderResp)
    (hinv : CollectInvariant sr) : CollectInvariant (mergeProviderResult sr p r) := by
  obtain ⟨h0, h1, h2, h3, h4, h5, h6⟩ := hinv
  obtain ⟨hs, he⟩ := mergeProviderResult_fields sr p r
  refine ⟨?_, ?_, ?_, ?_, ?_, ?_, ?_⟩
  · rw [he]; exact h0
  · rw [hs, statsGet_statsSet_ne _ _ (by cases p <;> decide)]; exact h1
  · rw [hs, statsGet_statsSet_ne _ _ (by cases p <;> decide)]; exact h2
  · rw [hs, statsGet_statsSet_ne _ _ (by cases p <;> decide)]; exact h3
  · rw [hs, statsGet_statsSet_ne _ _ (by cases p <;> decide)]; exact h4
  · rw [hs, statsGet_statsSet_ne _ _ (by cases p <;> decide)]; exact h5
  · rw [hs, statsGet_statsSet_ne _ _ (by cases p <;> decide)]; exact h6

theorem collectProviderResult_invariant {env : SearchEnv} {sr : SearchResults}
    {p : Provider} {outcome : Except String ProviderResp} {sr' : SearchResults}
    (h : collectProviderResult env sr p outcome = .ok sr')
    (hinv : CollectInvariant sr) : CollectInvariant sr' := by
  unfold collectProviderResult at h
  cases outcome with
  | error e =>
    obtain ⟨hs, he⟩ := handleProviderException_ok h
    obtain ⟨h0, h1, h2, h3, h4, h5, h6⟩ := hinv
    exact ⟨he ▸ h0, hs ▸ h1, hs ▸ h2, hs ▸ h3, hs ▸ h4, hs ▸ h5, hs ▸ h6⟩
  | ok r =>
    have hmerged := merged_invariant p r hinv
    cases hsal : env.salvar_etapa (providerStage p) <;> rw [hsal] at h
    · obtain ⟨hs, he⟩ := handleProviderException_ok h
      obtain ⟨g0, g1, g2, g3, g4, g5, g6⟩ := hmerged
      exact ⟨he ▸ g0, hs ▸ g1, hs ▸ g2, hs ▸ g3, hs ▸ g4, hs ▸ g5, hs ▸ g6⟩
    · simp at h
      rw [← h]
      exact hmerged

theorem collect_if_invariant {env : SearchEnv} {sr : SearchResults} {b : Bool}
    {p : Provider} {outcome : Except String ProviderResp} {sr' : SearchResults}
    (h : (if b then collectProviderResult env sr p outcome else .ok sr) = .ok sr')
    (hinv : CollectInvariant sr) : CollectInvariant sr' := by
  by_cases hb : b
  · rw [if_pos hb] at h
    exact collectProviderResult_invariant h hinv
  · rw [if_neg hb] at h
    simp at h
    rw [← h]
    exact hinv

theorem collectAllProviders_invariant {env : SearchEnv} {sr : SearchResults}
    {sr' : SearchResults} (h : collectAllProviders env sr = .ok sr')
    (hinv : CollectInvariant sr) : CollectInvariant sr' := by
  unfold collectAllProviders at h
  cases h1 : (if env.exa_available then collectProviderResult env sr .exa env.exa_outcome
              else .ok sr) with
  | error e => rw [h1] at h; exact absurd h (by simp)
  | ok sr1 =>
    rw [h1] at h
    dsimp only at h
    have hinv1 := collect_if_invariant h1 hinv
    cases h2 : (if env.google_available then
                  collectProviderResult env sr1 .google env.google_outcome
                else .ok sr1) with
    | error e => rw [h2] at h; exact absurd h (by simp)
    | ok sr2 =>
      rw [h2] at h
      dsimp only at h
      exact collectProviderResult_invariant h (collect_if_invariant h2 hinv1)

theorem finalizeSearchResults_ok {env : SearchEnv} {sr sr' : SearchResults}
    (h : finalizeSearchResults env sr = .ok sr') :
    ∃ a b c : Nat,
      statsGet sr.statistics "exa_count" = some a ∧
      statsGet sr.statistics "google_count" = some b ∧
      statsGet sr.statistics "other_count" = some c ∧
      sr'.statistics = statsSet (statsSet sr.statistics "search_time" env.elapsed)
          "total_results" (a + b + c) ∧
      sr'.error = (if a + b + c = 0
        then some "Configure APIs de pesquisa para obter dados reais" else sr.error) := by
  unfold finalizeSearchResults at h
  dsimp only at h
  cases hA : statsGet (statsSet sr.statistics "search_time" env.elapsed) "exa_count" with
  | none => rw [hA] at h; exact absurd h (by simp)
  | some a =>
  rw [hA] at h
  cases hB : statsGet (statsSet sr.statistics "search_time" env.elapsed) "google_count" with
  | none => rw [hB] at h; exact absurd h (by simp)
  | some b =>
  rw [hB] at h
  cases hC : statsGet (statsSet sr.statistics "search_time" env.elapsed) "other_count" with
  | none => rw [hC] at h; exact absurd h (by simp)
  | some c =>
  rw [hC] at h
  cases hS : env.salvar_etapa "busca_simultanea_consolidada" with
  | error e => rw [hS] at h; exact absurd h (by simp)
  | ok u =>
  rw [hS] at h
  simp only [Except.ok.injEq] at h
  rw [statsGet_statsSet_ne _ _ (by decide)] at hA hB hC
  refine ⟨a, b, c, hA, hB, hC, ?_, ?_⟩
  · rw [← h]
    by_cases h0 : a + b + c = 0 <;> simp [h0]
  · rw [← h]
    by_cases h0 : a + b + c = 0 <;> simp [h0]

theorem statsGet_isSome_statsSet (s : Stats) (k k' : String) (v : Nat)
    (h : (statsGet s k').isSome) : (statsGet (statsSet s k v) k').isSome := by
  rw [statsGet_statsSet]
  by_cases hk : k' = k <;> simp [hk, h]

theorem collectProviderResult_progress {env : SearchEnv}
    (hErro : ∀ s, env.salvar_erro s = .ok ()) (sr : SearchResults) (p : Provider)
    (outcome : Except String ProviderResp) :
    ∃ sr', collectProviderResult env sr p outcome = .ok sr' ∧
      (∀ k, (statsGet sr.statistics k).isSome → (statsGet sr'.statistics k).isSome) ∧
      (∀ r, outcome = .ok r → (statsGet sr'.statistics (providerCountKey p)).isSome) := by
  have hhandle : ∀ (sr0 : SearchResults) (e : String),
      handleProviderException env sr0 p e = .ok (setProviderError sr0 p e) := by
    intro sr0 e
    unfold handleProviderException
    rw [hErro]
  unfold collectProviderResult
  cases outcome with
  | error e =>
    refine ⟨setProviderError sr p e, hhandle sr e, ?_, ?_⟩
    · intro k hk
      rw [(setProviderError_fields sr p e).1]
      exact hk
    · intro r hr
      exact absurd hr (by simp)
  | ok r =>
    have hms := (mergeProviderResult_fields sr p r).1
    cases hsal : env.salvar_etapa (providerStage p) with
    | ok u =>
      refine ⟨mergeProviderResult sr p r, rfl, ?_, ?_⟩
      · intro k hk
        rw [hms]
        exact statsGet_isSome_statsSet _ _ _ _ hk
      · intro r' _
        rw [hms, statsGet_statsSet_self]
        rfl
    | error e =>
      refine ⟨setProviderError (mergeProviderResult sr p r) p e, hhandle _ e, ?_, ?_⟩
      · intro k hk
        rw [(setProviderError_fields _ p e).1, hms]
        exact statsGet_isSome_statsSet _ _ _ _ hk
      · intro r' _
        rw [(setProviderError_fields _ p e).1, hms, statsGet_statsSet_self]
        rfl

/-! ## Concrete aggregation environments and claim theorems (search side) -/

/-- Project the envelope out of an aggregation outcome (junk default on error;
used only at inputs where the outcome is `.ok`). -/
def envelopeOf (r : Except String SearchResults) : SearchResults :=
  match r with
  | .ok sr => sr
  | .error e => initialSearchResults e []

/-- A sample result item. -/
def itemW : ResultItem := { title := "t", url := "https://example.com.br", snippet := "s" }

/-- Benign environment: all providers enabled and succeeding with results,
persistence never failing. -/
def envWithResults : SearchEnv :=
  { exa_available := true, google_available := true
  , exa_outcome := .ok { results := [itemW], success := true }
  , google_outcome := .ok { results := [itemW, itemW], success := true }
  , other_outcome := .ok { results := [itemW], success := true }
  , salvar_etapa := fun _ => .ok (), salvar_erro := fun _ => .ok ()
  , elapsed := 2 }

/-- Environment in which the Exa and Google tasks succeed but the `other`
providers task exceeds its 120-second timeout. -/
def envOtherTimesOut : SearchEnv :=
  { exa_available := true, google_available := true
  , exa_outcome := .ok { results := [itemW], success := true }
  , google_outcome := .ok { results := [itemW], success := true }
  , other_outcome := .error "TimeoutError"
  , salvar_etapa := fun _ => .ok (), salvar_erro := fun _ => .ok ()
  , elapsed := 120 }

/-- Environment in which every provider reports success with an empty result
list (the Exa task does exactly this when the Exa API answers with an empty
`results` array, source lines 374–395; likewise Google on a 200 response with
no items, lines 450–470). -/
def envAllSucceedEmpty : SearchEnv :=
  { exa_available := true, google_available := true
  , exa_outcome := .ok { results := [], success := true }
  , google_outcome := .ok { results := [], success := true }
  , other_outcome := .ok { results := [], success := false }
  , salvar_etapa := fun _ => .ok (), salvar_erro := fun _ => .ok ()
  , elapsed := 1 }

/-- Environment whose persistence collaborator fails on the very first
checkpoint write (`salvar_etapa("queries_massivas_simultaneas", ...)`,
line 78), all providers fine. -/
def envInitialSaveFails : SearchEnv :=
  { exa_available := true, google_available := true
  , exa_outcome := .ok { results := [itemW], success := true }
  , google_outcome := .ok { results := [itemW], success := true }
  , other_outcome := .ok { results := [itemW], success := true }
  , salvar_etapa := fun s =>
      if s = "queries_massivas_simultaneas" then .error "PersistenceFailure" else .ok ()
  , salvar_erro := fun _ => .ok ()
  , elapsed := 1 }

/-- Environment whose persistence collaborator fails on every per-provider
incremental checkpoint but succeeds on the initial and final writes. -/
def envProviderSavesFail : SearchEnv :=
  { exa_available := true, google_available := true
  , exa_outcome := .ok { results := [itemW], success := true }
  , google_outcome := .ok { results := [itemW, itemW], success := true }
  , other_outcome := .ok { results := [itemW], success := true }
  , salvar_etapa := fun s =>
      if s = "queries_massivas_simultaneas" ∨ s = "busca_simultanea_consolidada"
      then .ok () else .error "PersistenceFailure"
  , salvar_erro := fun _ => .ok ()
  , elapsed := 1 }

/-- C1: the claim says `execute_simultaneous_distinct_search` always returns a
result envelope and never raises.  The code cannot satisfy this: every call
reaches line 123, which invokes the undefined method
`_prepare_exa_neural_search` and so raises `AttributeError`; and even with
that call resolved to the defined `_prepare_exa_neural_query`, an environment
in which the `other` provider task times out while Exa and Google succeed
with results makes the final-statistics computation at line 183 raise
`KeyError('other_count')`, because the statistics dict never initializes
`other_count`.  Both failures are exhibited at a concrete input. -/
theorem C1_aggregation_raises :
    execute_simultaneous_distinct_search envOtherTimesOut "mercado" []
      = .error "AttributeError: _prepare_exa_neural_search"
    ∧ execute_simultaneous_distinct_search_resolved envOtherTimesOut "mercado" []
      = .error "KeyError: other_count" := by
  exact ⟨rfl, rfl⟩

/-- C6: for every search envelope returned by the aggregation (with the
line-123 name slip resolved so that calls can return at all), the
per-provider result counts recorded in its `statistics` sum exactly to the
reported `total_results` — including when some providers errored or timed
out, since a failed provider's counter keeps its initial 0 and the six
never-written counters stay 0. -/
theorem C6_counts_sum_to_total (env : SearchEnv) (base_query : String)
    (context : Ctx) (sr : SearchResults)
    (h : execute_simultaneous_distinct_search_resolved env base_query context = .ok sr) :
    statsGet sr.statistics "total_results" = some (perProviderCountSum sr.statistics) := by
  unfold execute_simultaneous_distinct_search_resolved at h
  dsimp only at h
  cases hI : env.salvar_etapa "queries_massivas_simultaneas" with
  | error e => rw [hI] at h; exact absurd h (by simp)
  | ok u =>
  rw [hI] at h
  dsimp only at h
  cases hL : collectAllProviders env
      (initialSearchResults base_query
        (generate_comprehensive_query_variations base_query context)) with
  | error e => rw [hL] at h; exact absurd h (by simp)
  | ok sr0 =>
  rw [hL] at h
  dsimp only at h
  have hinv0 : CollectInvariant
      (initialSearchResults base_query
        (generate_comprehensive_query_variations base_query context)) :=
    ⟨rfl, rfl, rfl, rfl, rfl, rfl, rfl⟩
  obtain ⟨h0, h1, h2, h3, h4, h5, h6⟩ := collectAllProviders_invariant hL hinv0
  obtain ⟨a, b, c, hA, hB, hC, hstats, herr⟩ := finalizeSearchResults_ok h
  rw [hstats, statsGet_statsSet_self]
  unfold perProviderCountSum perProviderCountKeys
  simp only [List.map_cons, List.map_nil, List.sum_cons, List.sum_nil, hstats,
    statsGet_statsSet, hA, hB, hC, h1, h2, h3, h4, h5, h6, String.reduceEq,
    reduceIte, Option.getD_some, Option.some.injEq]
  omega

/-- Witness for `C6_counts_sum_to_total` at a concrete benign environment. -/
theorem C6_counts_sum_to_total_witness :
    statsGet (envelopeOf (execute_simultaneous_distinct_search_resolved envWithResults
        "mercado" [])).statistics "total_results"
    = some (perProviderCountSum
        (envelopeOf (execute_simultaneous_distinct_search_resolved envWithResults
          "mercado" [])).statistics) :=
  C6_counts_sum_to_total envWithResults "mercado" [] _ (by rfl)

/-- C5, as corrected: the aggregation's overall-failure indicator (the
`error` key set at lines 187–190) is set if and only if the envelope's
`total_results` statistic is zero.  The source never consults the providers'
`success` flags for this decision, so the claim's "iff every provider's
success flag is false" fails (see the counterexample). -/
theorem C5_failure_flag_iff_zero_total (env : SearchEnv) (base_query : String)
    (context : Ctx) (sr : SearchResults)
    (h : execute_simultaneous_distinct_search_resolved env base_query context = .ok sr) :
    sr.error.isSome = true ↔ statsGet sr.statistics "total_results" = some 0 := by
  unfold execute_simultaneous_distinct_search_resolved at h
  dsimp only at h
  cases hI : env.salvar_etapa "queries_massivas_simultaneas" with
  | error e => rw [hI] at h; exact absurd h (by simp)
  | ok u =>
  rw [hI] at h
  dsimp only at h
  cases hL : collectAllProviders env
      (initialSearchResults base_query
        (generate_comprehensive_query_variations base_query context)) with
  | error e => rw [hL] at h; exact absurd h (by simp)
  | ok sr0 =>
  rw [hL] at h
  dsimp only at h
  have hinv0 : CollectInvariant
      (initialSearchResults base_query
        (generate_comprehensive_query_variations base_query context)) :=
    ⟨rfl, rfl, rfl, rfl, rfl, rfl, rfl⟩
  have h0 : sr0.error = none := (collectAllProviders_invariant hL hinv0).1
  obtain ⟨a, b, c, hA, hB, hC, hstats, herr⟩ := finalizeSearchResults_ok h
  rw [hstats, statsGet_statsSet_self, herr, h0]
  by_cases hz : a + b + c = 0 <;> simp [hz]

/-- Witness for `C5_failure_flag_iff_zero_total` at a concrete environment. -/
theorem C5_failure_flag_iff_zero_total_witness :
    (envelopeOf (execute_simultaneous_distinct_search_resolved envAllSucceedEmpty
        "mercado" [])).error.isSome = true
    ↔ statsGet (envelopeOf (execute_simultaneous_distinct_search_resolved
        envAllSucceedEmpty "mercado" [])).statistics "total_results" = some 0 :=
  C5_failure_flag_iff_zero_total envAllSucceedEmpty "mercado" [] _ (by rfl)

/-- Counterexample to C5 as stated: with every provider enabled, the Exa and
Google tasks reporting `success=True` with empty result lists (a behavior the
task bodies do produce, lines 374–395 and 450–470), the returned envelope has
its overall-failure indicator set even though not every provider's success
flag is false — the indicator tracks `total_results == 0`, not the success
flags. -/
theorem C5_counterexample :
    (execute_simultaneous_distinct_search_resolved envAllSucceedEmpty
      "mercado" []).isOk = true
    ∧ (envelopeOf (execute_simultaneous_distinct_search_resolved envAllSucceedEmpty
        "mercado" [])).error.isSome = true
    ∧ envAllSucceedEmpty.exa_outcome = .ok { results := [], success := true } := by
  exact ⟨rfl, rfl, rfl⟩

/-- C8, as corrected: persistence failures are contained only for the
*per-provider incremental checkpoints* (lines 151/159/167, whose exceptions
are caught by the collection loop's `except`): if the initial
query-checkpoint, the final consolidated checkpoint and the error-record
writes succeed, the aggregation returns its envelope no matter how the
per-provider checkpoint writes behave.  The unguarded initial/final
`salvar_etapa` (lines 78, 193) and `salvar_erro` (line 171) calls, by
contrast, propagate their failures (see the counterexample). -/
theorem C8_provider_checkpoint_failures_contained (env : SearchEnv)
    (base_query : String) (context : Ctx) (r : ProviderResp)
    (hInit : env.salvar_etapa "queries_massivas_simultaneas" = .ok ())
    (hFinal : env.salvar_etapa "busca_simultanea_consolidada" = .ok ())
    (hErro : ∀ s, env.salvar_erro s = .ok ())
    (hOther : env.other_outcome = .ok r) :
    ∃ sr, execute_simultaneous_distinct_search_resolved env base_query context
      = .ok sr := by
  unfold execute_simultaneous_distinct_search_resolved
  rw [hInit]
  dsimp only
  -- run the collection loop via the progress lemma, tracking counter presence
  have hpres0 : (statsGet (initialSearchResults base_query
      (generate_comprehensive_query_variations base_query context)).statistics
      "exa_count").isSome ∧
      (statsGet (initialSearchResults base_query
        (generate_comprehensive_query_variations base_query context)).statistics
        "google_count").isSome := ⟨rfl, rfl⟩
  obtain ⟨hpA, hpB⟩ := hpres0
  unfold collectAllProviders
  -- exa phase
  have stepExa : ∃ sr1, (if env.exa_available then
      collectProviderResult env (initialSearchResults base_query
        (generate_comprehensive_query_variations base_query context)) .exa env.exa_outcome
      else .ok (initialSearchResults base_query
        (generate_comprehensive_query_variations base_query context))) = .ok sr1 ∧
      (statsGet sr1.statistics "exa_count").isSome ∧
      (statsGet sr1.statistics "google_count").isSome := by
    by_cases he : env.exa_available
    · obtain ⟨sr1, hok, hmono, _⟩ :=
        collectProviderResult_progress hErro _ .exa env.exa_outcome
      exact ⟨sr1, by rw [if_pos he]; exact hok, hmono _ hpA, hmono _ hpB⟩
    · exact ⟨_, by rw [if_neg he], hpA, hpB⟩
  obtain ⟨sr1, hok1, hpA1, hpB1⟩ := stepExa
  rw [hok1]
  dsimp only
  -- google phase
  have stepGoogle : ∃ sr2, (if env.google_available then
      collectProviderResult env sr1 .google env.google_outcome else .ok sr1) = .ok sr2 ∧
      (statsGet sr2.statistics "exa_count").isSome ∧
      (statsGet sr2.statistics "google_count").isSome := by
    by_cases hg : env.google_available
    · obtain ⟨sr2, hok, hmono, _⟩ :=
        collectProviderResult_progress hErro sr1 .google env.google_outcome
      exact ⟨sr2, by rw [if_pos hg]; exact hok, hmono _ hpA1, hmono _ hpB1⟩
    · exact ⟨sr1, by rw [if_neg hg], hpA1, hpB1⟩
  obtain ⟨sr2, hok2, hpA2, hpB2⟩ := stepGoogle
  rw [hok2]
  dsimp only
  -- other phase (always ok, and it creates the other_count entry)
  obtain ⟨sr3, hok3, hmono3, hself3⟩ :=
    collectProviderResult_progress hErro sr2 .other env.other_outcome
  rw [hok3]
  dsimp only
  -- finalization
  have hA3 : (statsGet sr3.statistics "exa_count").isSome := hmono3 _ hpA2
  have hB3 : (statsGet sr3.statistics "google_count").isSome := hmono3 _ hpB2
  have hC3 : (statsGet sr3.statistics "other_count").isSome := hself3 r hOther
  unfold finalizeSearchResults
  dsimp only
  obtain ⟨a, ha⟩ := Option.isSome_iff_exists.mp
    (statsGet_isSome_statsSet sr3.statistics "search_time" "exa_count" env.elapsed hA3)
  obtain ⟨b, hb⟩ := Option.isSome_iff_exists.mp
    (statsGet_isSome_statsSet sr3.statistics "search_time" "google_count" env.elapsed hB3)
  obtain ⟨c, hc⟩ := Option.isSome_iff_exists.mp
    (statsGet_isSome_statsSet sr3.statistics "search_time" "other_count" env.elapsed hC3)
  rw [ha]
  dsimp only
  rw [hb]
  dsimp only
  rw [hc]
  dsimp only
  rw [hFinal]
  exact ⟨_, rfl⟩

/-- Witness for `C8_provider_checkpoint_failures_contained`: with every
per-provider incremental-checkpoint write failing, the aggregation still
returns an envelope. -/
theorem C8_provider_checkpoint_failures_contained_witness :
    (execute_simultaneous_distinct_search_resolved envProviderSavesFail
      "mercado" []).isOk = true := by
  obtain ⟨sr, hsr⟩ := C8_provider_checkpoint_failures_contained envProviderSavesFail
    "mercado" [] { results := [itemW], success := true }
    (by rfl) (by rfl) (fun _ => rfl) (by rfl)
  rw [hsr]
  rfl

/-- Counterexample to C8 as stated: a failure of the very first checkpoint
write (`salvar_etapa("queries_massivas_simultaneas", ...)`, line 78 — an
unguarded call) aborts the aggregation and propagates to the caller, on the
unmodified operation and on the name-slip-resolved one alike. -/
theorem C8_counterexample :
    execute_simultaneous_distinct_search envInitialSaveFails "mercado" []
      = .error "PersistenceFailure"
    ∧ execute_simultaneous_distinct_search_resolved envInitialSaveFails "mercado" []
      = .error "PersistenceFailure" := by
  exact ⟨rfl, rfl⟩

/-- The seven query-variation category names, in the order the source builds
them. -/
def queryVariationCategories : List String :=
  [ "exa_neural_queries", "google_keyword_queries", "deep_research_queries"
  , "social_media_queries", "news_queries", "competitor_queries", "trend_queries" ]

/-- C9, as corrected: the Query Variation Generator is pure and total with
*no* error conditions at all — for every base query, including the empty
string, it returns the variation mapping of seven fixed categories with four
derived query strings each; missing context fields are interpolated as empty
strings (the `context.get(..., '')` default) rather than causing failure.
The source contains no empty-query validation and no failure path, so the
claimed `InvalidInput` error on an empty base query does not exist. -/
theorem C9_generator_total (base_query : String) (context : Ctx) :
    (generate_comprehensive_query_variations base_query context).map Prod.fst
      = queryVariationCategories
    ∧ (generate_comprehensive_query_variations base_query context).all
        (fun cat => cat.2.length = 4) = true := by
  exact ⟨rfl, rfl⟩

/-- Counterexample to C9 as stated: on the empty base query the generator
does not fail with `InvalidInput` — it returns the full variation mapping
(seven categories, four queries each; its first derived query is the
category boilerplate applied to the empty string). -/
theorem C9_counterexample :
    (generate_comprehensive_query_variations "" []).map Prod.fst
      = queryVariationCategories
    ∧ (generate_comprehensive_query_variations "" []).all
        (fun cat => cat.2.length = 4) = true
    ∧ ((generate_comprehensive_query_variations "" []).head?.map
        (fun cat => cat.2.head?)).join
      = some " insights análise neural semântica" := by
  exact ⟨rfl, rfl, rfl⟩

/-! ## Super orchestrator: Python-value model -/

/-- Python values as passed between orchestration tiers: strings, integers,
booleans, lists, and string-keyed dicts (modelled as association lists).
`None` and floats do not occur in the data the embedded code paths
manipulate.  -/
inductive PyVal where
  | str (s : String)
  | int (n : Int)
  | bool (b : Bool)
  | list (l : List PyVal)
  | dict (d : List (String × PyVal))
  deriving Repr

/-- A Python dict with string keys. -/
abbrev PyDict := List (String × PyVal)

/-- Python `d.get(k)` / `k in d` lookup. -/
def pyGet (d : PyDict) (k : String) : Option PyVal :=
  match d.find? (fun p => p.1 = k) with
  | some p => some p.2
  | none => none

/-- Python `{**a, **b}`: keys of `a` in order (values overridden by `b`
where present), then the keys of `b` not in `a`. -/
def dictUnion (a b : PyDict) : PyDict :=
  a.map (fun p => match pyGet b p.1 with | some v => (p.1, v) | none => p)
    ++ b.filter (fun p => (pyGet a p.1).isNone)

mutual
/-- Length of Python's `str()` rendering of a value (`len(str(value))`,
used by the `< 10000` size cut in `_clean_data_for_master`): strings render
with two quotes, booleans as `True`/`False`, lists as `[a, b]`, dicts as
`{'k': v, ...}` with two characters per separator. -/
def pyReprLen : PyVal → Nat
  | .str s => s.length + 2
  | .int n => (toString n).length
  | .bool b => if b then 4 else 5
  | .list l => 2 + pyReprLenList l
  | .dict d => 2 + pyReprLenEntries d

def pyReprLenList : List PyVal → Nat
  | [] => 0
  | [v] => pyReprLen v
  | v :: rest => pyReprLen v + 2 + pyReprLenList rest

def pyReprLenEntries : List (String × PyVal) → Nat
  | [] => 0
  | [(k, v)] => k.length + 4 + pyReprLen v
  | (k, v) :: rest => k.length + 4 + pyReprLen v + 2 + pyReprLenEntries rest
end

/-- The keys stripped by `_clean_data_for_master` (line 373) because they may
carry intermediate results back into the coarser tier. -/
def isRecursionSourceKey (k : String) : Bool :=
  k = "previous_results" ∨ k = "orchestrator_results" ∨ k = "service_results"

/-- The filter of `_clean_data_for_master` (lines 371–377): drop
intermediate-result keys; keep primitive and list values; keep dict values
only when their rendering is under 10000 characters. -/
def keepForMaster (p : String × PyVal) : Bool :=
  if isRecursionSourceKey p.1 then false
  else
    match p.2 with
    | .str _ => true
    | .int _ => true
    | .bool _ => true
    | .list _ => true
    | .dict _ => pyReprLen p.2 < 10000

/-- `_clean_data_for_master` (lines 367–379). -/
def clean_data_for_master (data : PyDict) : PyDict :=
  data.filter keepForMaster

/-- The essential keys kept by `_clean_data_for_enhanced` (line 386). -/
def essentialKeys : List String :=
  ["segmento", "produto", "publico", "session_id", "web_research", "social_analysis"]

/-- `_clean_data_for_enhanced` (lines 381–392): the reduced
essential-fields-only view handed to the enhanced orchestrator. -/
def clean_data_for_enhanced (data : PyDict) : PyDict :=
  essentialKeys.filterMap (fun k => (pyGet data k).map (fun v => (k, v)))

/-- `_combine_orchestrator_results` (lines 784–794): both tiers' outputs are
kept side by side, tagged by tier of origin, neither replacing the other. -/
def combine_orchestrator_results (component_results master_results : PyVal)
    (original_data : PyDict) (timestamp session_id : String) : PyDict :=
  [ ("component_orchestrator_results", component_results)
  , ("master_orchestrator_results", master_results)
  , ("original_input_data", .dict original_data)
  , ("combined_timestamp", .str timestamp)
  , ("session_id", .str session_id) ]

/-- `_enhance_component_results` (lines 796–805). -/
def enhance_component_results (component_results : PyVal) (original_data : PyDict)
    (timestamp session_id : String) : PyDict :=
  [ ("component_orchestrator_results", component_results)
  , ("original_input_data", .dict original_data)
  , ("enhanced_timestamp", .str timestamp)
  , ("session_id", .str session_id) ]

/-- `_merge_enhanced_results` (lines 807–811): shallow dict union, enhanced
keys overriding. -/
def merge_enhanced_results (current_results enhanced_results : PyDict) : PyDict :=
  dictUnion current_results enhanced_results

/-- `_consolidate_all_results_safe` (lines 813–823): pure, never fails. -/
def consolidate_all_results_safe (final_results service_status : PyVal)
    (session_id timestamp : String) : PyVal :=
  .dict [ ("final_analysis_report", final_results)
        , ("service_health_status", service_status)
        , ("consolidation_timestamp", .str timestamp)
        , ("session_id", .str session_id)
        , ("status", .str "consolidated_safe") ]

/-! ## Recursion guard -/

/-- The process-wide `_global_recursion_depth` table: recursion key → depth.
Same association-list dict model as `Stats` (and it reuses its operations). -/
abbrev RecTable := Stats

/-- The dict key `f"{method_name}_{session_id}"` of `_check_recursion`
(line 146). -/
def recursionKey (method_name session_id : String) : String :=
  method_name ++ "_" ++ session_id

/-- The configured ceiling `self._max_recursion_depth` (line 67). -/
def defaultMaxRecursionDepth : Nat := 3

/-- `_check_recursion` (lines 144–157): lazily create the counter, increment
it, and report whether the new depth exceeds the ceiling.  Returns the
flag and the updated table. -/
def check_recursion (maxDepth : Nat) (t : RecTable) (key : String) :
    Bool × RecTable :=
  let d := (statsGet t key).getD 0 + 1
  (decide (maxDepth < d), statsSet t key d)

/-- `_reset_recursion` (lines 159–162): zero the counter. -/
def reset_recursion (t : RecTable) (key : String) : RecTable :=
  statsSet t key 0

/-- `sum(self._global_recursion_depth.values())` (line 244). -/
def recTableSum (t : RecTable) : Nat :=
  (t.map Prod.snd).sum

/-- The re-entrancy structure of one component-wrapper invocation
(`_execute_web_search` and the seven analogous wrappers, lines 462–782): a
node's children are the nested re-invocations of the same component that its
real-logic phase performs (directly or through the services it calls). -/
inductive CallTree where
  | node : List CallTree → CallTree

mutual
/-- One wrapper invocation.  It first runs `_check_recursion`; if the ceiling
is exceeded it returns the `{'fallback': ...}` marker payload *before the
`try` block*, so the `finally: self._reset_recursion(...)` does **not** run
on this path.  Otherwise the real logic runs (executing the nested calls)
and the `finally` clause resets the counter to zero.  The result is the
final table together with the log of invocations in execution order, each as
(depth after increment, returned-the-fallback-marker?). -/
def runComponentCall (maxDepth : Nat) (t : RecTable) (key : String) :
    CallTree → RecTable × List (Nat × Bool)
  | .node children =>
    let d := (statsGet t key).getD 0 + 1
    let t1 := statsSet t key d
    if maxDepth < d then (t1, [(d, true)])
    else
      let r := runComponentCalls maxDepth t1 key children
      (reset_recursion r.1 key, (d, false) :: r.2)

/-- A sequence of wrapper invocations, threading the table. -/
def runComponentCalls (maxDepth : Nat) (t : RecTable) (key : String) :
    List CallTree → RecTable × List (Nat × Bool)
  | [] => (t, [])
  | c :: cs =>
    let r1 := runComponentCall maxDepth t key c
    let r2 := runComponentCalls maxDepth r1.1 key cs
    (r2.1, r1.2 ++ r2.2)
end

theorem runComponent_log_spec (maxDepth : Nat) (key : String) :
    ∀ n : Nat,
      (∀ c : CallTree, sizeOf c ≤ n → ∀ t : RecTable,
        ∀ e ∈ (runComponentCall maxDepth t key c).2, e.2 = decide (maxDepth < e.1)) ∧
      (∀ cs : List CallTree, sizeOf cs ≤ n → ∀ t : RecTable,
        ∀ e ∈ (runComponentCalls maxDepth t key cs).2, e.2 = decide (maxDepth < e.1)) := by
  intro n
  induction n with
  | zero =>
    constructor
    · intro c hc
      cases c with
      | node children =>
        have := CallTree.node.sizeOf_spec children
        omega
    · intro cs hcs
      cases cs with
      | nil => intro t e he; simp [runComponentCalls] at he
      | cons c cs' =>
        have := List.cons.sizeOf_spec c cs'
        omega
  | succ n ih =>
    obtain ⟨ihc, ihcs⟩ := ih
    constructor
    · intro c hc t e he
      cases c with
      | node children =>
        have hspec := CallTree.node.sizeOf_spec children
        have hsz : sizeOf children ≤ n := by omega
        unfold runComponentCall at he
        dsimp only at he
        by_cases hd : maxDepth < (statsGet t key).getD 0 + 1
        · rw [if_pos hd] at he
          simp only [List.mem_singleton] at he
          subst he
          simp [hd]
        · rw [if_neg hd] at he
          simp only [List.mem_cons] at he
          rcases he with he | he
          · subst he
            simp [hd]
          · exact ihcs children hsz _ e he
    · intro cs hcs t e he
      cases cs with
      | nil => simp [runComponentCalls] at he
      | cons c cs' =>
        have hspec := List.cons.sizeOf_spec c cs'
        have h1 : sizeOf c ≤ n := by omega
        have h2 : sizeOf cs' ≤ n := by omega
        unfold runComponentCalls at he
        dsimp only at he
        rw [List.mem_append] at he
        rcases he with he | he
        · exact ihc c h1 t e he
        · exact ihcs cs' h2 _ e he

/-- C3, as corrected: in every run of recursion-guarded component
invocations — arbitrary starting table, arbitrary nesting — an invocation
returns the fallback marker *iff* its incremented (component, run) depth
exceeds the ceiling.  So the counter never exceeds the ceiling without the
fallback path being triggered on that very invocation, and an invocation at
or below the ceiling executes real logic.  The original claim's second half
is false (see the counterexample): the fallback path returns before the
`try`, leaving the counter high, but every enclosing real-logic invocation
resets the counter in its `finally`, so once the nested stack unwinds a
subsequent invocation of the same component in the same run executes real
logic again rather than returning the fallback marker. -/
theorem C3_fallback_iff_ceiling (maxDepth : Nat) (t : RecTable)
    (method_name session_id : String) (trees : List CallTree) :
    ∀ e ∈ (runComponentCalls maxDepth t
        (recursionKey method_name session_id) trees).2,
      (e.2 = true ↔ maxDepth < e.1) := by
  intro e he
  have h := (runComponent_log_spec maxDepth (recursionKey method_name session_id)
      (sizeOf trees)).2 trees le_rfl t e he
  rw [h]
  simp

/-- A web-search invocation whose real logic re-enters itself three levels
deep (four nested invocations in all). -/
def nestedFourDeep : CallTree := .node [.node [.node [.node []]]]

/-- Counterexample to C3 as stated: with the default ceiling 3, a run whose
first top-level invocation nests four deep trips the guard (the fourth
invocation logs depth 4 and returns the fallback marker), yet the *next*
invocation of the same component in the same run logs depth 1 and executes
real logic — because the enclosing invocations' `finally` clauses reset the
counter while unwinding.  "Once the ceiling is reached, every subsequent
invocation returns the fallback marker" is false, and the table ends at
zero. -/
theorem C3_counterexample :
    (runComponentCalls defaultMaxRecursionDepth []
        (recursionKey "web_search" "s1") [nestedFourDeep, .node []]).2
      = [(1, false), (2, false), (3, false), (4, true), (1, false)]
    ∧ (runComponentCalls defaultMaxRecursionDepth []
        (recursionKey "web_search" "s1") [nestedFourDeep, .node []]).1
      = [(recursionKey "web_search" "s1", 0)] := by
  exact ⟨rfl, rfl⟩

/-- Witness for `C3_fallback_iff_ceiling`: the membership hypothesis
discharged at the depth-4 fallback entry of the concrete nested run. -/
theorem C3_fallback_iff_ceiling_witness :
    (((4, true) : Nat × Bool).2 = true ↔ defaultMaxRecursionDepth < (4, true).1) :=
  C3_fallback_iff_ceiling defaultMaxRecursionDepth [] "web_search" "s1"
    [nestedFourDeep, .node []] (4, true) (by decide)

/-! ## Super orchestrator: `execute_synchronized_analysis` -/

/-- The result of the external `component_orchestrator.execute_components`:
its `execution_stats.success_rate` (a percentage; only its order against 50
matters, so it is an integer here), its `successful_components` list, and
the whole result dict as a Python value for embedding into combined
results. -/
structure CompResults where
  success_rate : Int
  successful_components : List String
  payload : PyVal

/-- Environment of one `execute_synchronized_analysis` call: the persistence
collaborator, the service-status snapshot computed by
`_check_all_services_status` (which catches all its own errors and always
returns, lines 394–459), the three external orchestrators as oracles
(`.error` models the call raising), the recursion table as component
execution leaves it when FASE 4 reads it (line 244; FASE 2/3 run the
recursion-guarded wrappers whose semantics `runComponentCall` models), the
timestamps and the measured execution time.  Progress callbacks are elided:
they only forward strings. -/
structure OrchEnv where
  salvar_etapa : String → Except String Unit
  salvar_erro : String → Except String Unit
  service_status : PyVal
  execute_components : Except String CompResults
  execute_master : Except String PyVal
  execute_enhanced : Except String PyDict
  rec_table_after_components : RecTable
  timestamp : String
  elapsed : Nat

/-- The caller-facing result dict of `execute_synchronized_analysis`.  The
three exits build dicts with different key sets, so keys not common to all
are `Option`s (`none` = key absent): the normal return (lines 292–304), the
emergency-recovery return (lines 346–356) and the `_generate_emergency_fallback`
return (lines 835–844).  The constant keys `orchestrators_used`,
`anti_recursion_active` and `service_status` carry no claim-relevant
information and are elided. -/
structure SyncResult where
  success : Bool
  session_id : String
  sync_status : String
  execution_time : Option Nat := none
  report : Option PyVal := none
  component_success_rate : Option Int := none
  total_components : Option Nat := none
  recursion_prevented : Option Nat := none
  error_occurred : Option Bool := none
  error_message : Option String := none
  emergency_mode : Option Bool := none
  partial_data : Option PyDict := none
  generated_at : Option String := none

/-- Which external-orchestrator invocations a run performed, with the input
each received: the arguments of the `master_orchestrator` call (line 228)
and of the `enhanced_orchestrator` call (line 252). -/
structure CallTrace where
  master_calls : List PyDict := []
  enhanced_calls : List PyDict := []

/-- `_generate_emergency_fallback` (lines 832–844): the structurally distinct
hard-failure result. -/
def generate_emergency_fallback (data : PyDict) (session_id timestamp : String) :
    SyncResult :=
  { success := false
  , session_id := session_id
  , sync_status := "EMERGENCY_FALLBACK"
  , error_occurred := some true
  , error_message := some "Falha crítica e recuperação de emergência falhou."
  , partial_data := some data
  , generated_at := some timestamp }

/-- The outer `except` block (lines 306–365): first an *unguarded*
`salvar_erro` (line 308 — if the persistence collaborator raises here, the
exception propagates to the caller), then the emergency-recovery `try`:
build the partial-results dict, consolidate it (pure), and attempt the
save; only if the save raises does the inner `except` return the
`_generate_emergency_fallback` result. -/
def handle_critical (env : OrchEnv) (data : PyDict) (session_id e : String) :
    Except String SyncResult :=
  match env.salvar_erro "super_orchestrator_critico" with
  | .error pe => .error pe
  | .ok _ =>
    let partial_results : PyDict :=
      [ ("session_id", .str session_id)
      , ("error_occurred", .bool true)
      , ("error_message", .str e)
      , ("partial_data", .dict data)
      , ("generated_at", .str env.timestamp)
      , ("anti_recursion_applied", .bool true) ]
    let emergency_report := consolidate_all_results_safe (.dict partial_results)
        (.dict [("overall_health", .str "emergency"), ("error", .str e)])
        session_id env.timestamp
    match env.salvar_etapa "relatorio_final_consolidado" with
    | .error _ => .ok (generate_emergency_fallback data session_id env.timestamp)
    | .ok _ =>
      .ok { success := true
          , session_id := session_id
          , sync_status := "EMERGENCY_RECOVERY_NO_RECURSION"
          , execution_time := some env.elapsed
          , emergency_mode := some true
          , error_occurred := some true
          , error_message := some e
          , report := some emergency_report }

/-- FASE 5–6 plus the normal return (lines 266–304): consolidate the working
results, save them through `_save_to_all_categories_safe` (whose
`salvar_etapa` may raise, landing in the outer `except`), and return the
`PERFECT_SYNC_NO_RECURSION` result. -/
def finishSynchronized (env : OrchEnv) (data : PyDict) (session_id : String)
    (comp : CompResults) (final_results : PyDict) (recursion_count : Nat) :
    Except String SyncResult :=
  match env.salvar_etapa "relatorio_final_consolidado" with
  | .error e => handle_critical env data session_id e
  | .ok _ =>
    .ok { success := true
        , session_id := session_id
        , sync_status := "PERFECT_SYNC_NO_RECURSION"
        , execution_time := some env.elapsed
        , report := some (consolidate_all_results_safe (.dict final_results)
            env.service_status session_id env.timestamp)
        , component_success_rate := some comp.success_rate
        , total_components := some comp.successful_components.length
        , recursion_prevented := some recursion_count }

/-- FASE 4 (lines 243–264): read the global recursion-count; if zero, hand
the enhanced orchestrator the essential-fields view of `{**data, **final0}`;
on its failure, record the error (`salvar_erro` line 260 — its own failure
propagates to the outer `except`) and proceed with the results already in
hand.  Returns the outcome together with the enhanced-orchestrator call
list. -/
def phase4Enhanced (env : OrchEnv) (data : PyDict) (session_id : String)
    (comp : CompResults) (final0 : PyDict) :
    Except String SyncResult × List PyDict :=
  let recursion_count := recTableSum env.rec_table_after_components
  if recursion_count = 0 then
    let clean_enhanced := clean_data_for_enhanced (dictUnion data final0)
    match env.execute_enhanced with
    | .ok enhanced_results =>
        (finishSynchronized env data session_id comp
          (merge_enhanced_results final0 enhanced_results) recursion_count,
         [clean_enhanced])
    | .error _ =>
      match env.salvar_erro "enhanced_orchestrator_error" with
      | .error pe => (handle_critical env data session_id pe, [clean_enhanced])
      | .ok _ =>
        (finishSynchronized env data session_id comp final0 recursion_count,
         [clean_enhanced])
  else
    (finishSynchronized env data session_id comp final0 recursion_count, [])

/-- The working result set produced by FASE 3 (lines 219–241): below a 50%
success rate, the Master tier is invoked on the sanitized copy of the input
and both tiers' outputs are combined; otherwise the component results are
merely wrapped. -/
def tier3WorkingResults (env : OrchEnv) (data : PyDict) (session_id : String)
    (comp : CompResults) (master_results : PyVal) : PyDict :=
  if comp.success_rate < 50 then
    combine_orchestrator_results comp.payload master_results
      (clean_data_for_master data) env.timestamp session_id
  else
    enhance_component_results comp.payload data env.timestamp session_id

/-- `execute_synchronized_analysis` (lines 164–365).  The recursion table is
cleared at entry (line 177) and the run-state record is created before the
first fallible statement, so the outer `except` (modelled by
`handle_critical`) is reachable only from the oracle calls.  Returns the
outcome (`.error` = a raw exception escaping to the caller) together with
the trace of master/enhanced invocations. -/
def execute_synchronized_analysis (env : OrchEnv) (data : PyDict)
    (session_id : String) : Except String SyncResult × CallTrace :=
  match env.salvar_etapa "super_orchestrator_iniciado" with
  | .error e => (handle_critical env data session_id e, {})
  | .ok _ =>
    match env.execute_components with
    | .error e => (handle_critical env data session_id e, {})
    | .ok comp =>
      if comp.success_rate < 50 then
        match env.execute_master with
        | .error e =>
            (handle_critical env data session_id e,
             { master_calls := [clean_data_for_master data] })
        | .ok master_results =>
          let r := phase4Enhanced env data session_id comp
              (tier3WorkingResults env data session_id comp master_results)
          (r.1, { master_calls := [clean_data_for_master data]
                , enhanced_calls := r.2 })
      else
        let r := phase4Enhanced env data session_id comp
            (tier3WorkingResults env data session_id comp (.dict []))
        (r.1, { enhanced_calls := r.2 })

/-! ## Claim theorems: orchestrator error handling (C2) -/

/-- A result is tagged by the tier that produced it: normal sync, emergency
recovery (with `error_occurred`), or the hard-failure fallback — the latter
only when the emergency path's own save threw. -/
def TierTagged (env : OrchEnv) (r : SyncResult) : Prop :=
  r.sync_status = "PERFECT_SYNC_NO_RECURSION"
  ∨ (r.sync_status = "EMERGENCY_RECOVERY_NO_RECURSION" ∧ r.error_occurred = some true
     ∧ r.success = true)
  ∨ (r.sync_status = "EMERGENCY_FALLBACK" ∧ r.error_occurred = some true
     ∧ r.success = false
     ∧ ∃ pe, env.salvar_etapa "relatorio_final_consolidado" = .error pe)

theorem handle_critical_spec (env : OrchEnv) (data : PyDict) (session_id e : String)
    (hcrit : env.salvar_erro "super_orchestrator_critico" = .ok ()) :
    ∃ r, handle_critical env data session_id e = .ok r ∧ TierTagged env r := by
  unfold handle_critical
  rw [hcrit]
  dsimp only
  cases hs : env.salvar_etapa "relatorio_final_consolidado" with
  | error pe =>
    exact ⟨_, rfl, Or.inr (Or.inr ⟨rfl, rfl, rfl, pe, hs⟩)⟩
  | ok u =>
    cases u
    exact ⟨_, rfl, Or.inr (Or.inl ⟨rfl, rfl, rfl⟩)⟩

theorem finishSynchronized_spec (env : OrchEnv) (data : PyDict)
    (session_id : String) (comp : CompResults) (final_results : PyDict)
    (rc : Nat) (hcrit : env.salvar_erro "super_orchestrator_critico" = .ok ()) :
    ∃ r, finishSynchronized env data session_id comp final_results rc = .ok r ∧
      TierTagged env r := by
  unfold finishSynchronized
  cases hs : env.salvar_etapa "relatorio_final_consolidado" with
  | error e => exact handle_critical_spec env data session_id e hcrit
  | ok u =>
    cases u
    exact ⟨_, rfl, Or.inl rfl⟩

theorem phase4Enhanced_spec (env : OrchEnv) (data : PyDict) (session_id : String)
    (comp : CompResults) (final0 : PyDict)
    (hcrit : env.salvar_erro "super_orchestrator_critico" = .ok ()) :
    ∃ r, (phase4Enhanced env data session_id comp final0).1 = .ok r ∧
      TierTagged env r := by
  unfold phase4Enhanced
  dsimp only
  by_cases h0 : recTableSum env.rec_table_after_components = 0
  · rw [if_pos h0]
    cases he : env.execute_enhanced with
    | ok enh =>
      dsimp only
      exact finishSynchronized_spec env data session_id comp _ _ hcrit
    | error err =>
      dsimp only
      cases hse : env.salvar_erro "enhanced_orchestrator_error" with
      | error pe =>
        dsimp only
        exact handle_critical_spec env data session_id pe hcrit
      | ok u =>
        cases u
        dsimp only
        exact finishSynchronized_spec env data session_id comp _ _ hcrit
  · rw [if_neg h0]
    exact finishSynchronized_spec env data session_id comp _ _ hcrit

/-- C2, as corrected: *provided the unguarded error-record write at the top
of the failure handler (line 308) does not itself raise*, the caller always
receives a report-shaped result whose `sync_status` identifies the producing
tier — `PERFECT_SYNC_NO_RECURSION` on the normal path,
`EMERGENCY_RECOVERY_NO_RECURSION` with `error_occurred=true` on the
emergency consolidation path, and `EMERGENCY_FALLBACK` (with
`success=false`) only when the emergency path's own save throws — and no
raw exception propagates.  The original claim's literal tag names
(`PERFECT_SYNC`, `EMERGENCY_RECOVERY`) and its unconditional
no-raw-exception guarantee both fail on the code (see the
counterexample). -/
theorem C2_always_tier_tagged (env : OrchEnv) (data : PyDict) (session_id : String)
    (hcrit : env.salvar_erro "super_orchestrator_critico" = .ok ()) :
    ∃ r, (execute_synchronized_analysis env data session_id).1 = .ok r ∧
      TierTagged env r := by
  unfold execute_synchronized_analysis
  cases h1 : env.salvar_etapa "super_orchestrator_iniciado" with
  | error e =>
    dsimp only
    exact handle_critical_spec env data session_id e hcrit
  | ok u =>
    cases u
    dsimp only
    cases h2 : env.execute_components with
    | error e =>
      dsimp only
      exact handle_critical_spec env data session_id e hcrit
    | ok comp =>
      dsimp only
      by_cases hrate : comp.success_rate < 50
      · rw [if_pos hrate]
        cases h3 : env.execute_master with
        | error e =>
          dsimp only
          exact handle_critical_spec env data session_id e hcrit
        | ok m =>
          dsimp only
          exact phase4Enhanced_spec env data session_id comp _ hcrit
      · rw [if_neg hrate]
        dsimp only
        exact phase4Enhanced_spec env data session_id comp _ hcrit

/-- Sample input data for the orchestrator (the module's own test input,
lines 852–856). -/
def dataX : PyDict :=
  [ ("segmento", .str "tecnologia")
  , ("produto", .str "software de IA")
  , ("publico", .str "desenvolvedores") ]

/-- Successful component-tier outcome (80% success rate). -/
def compHigh : CompResults :=
  { success_rate := 80
  , successful_components := ["web_search", "social_analysis", "mental_drivers"]
  , payload := .dict [("successful_components",
      .list [.str "web_search", .str "social_analysis", .str "mental_drivers"])] }

/-- Benign environment: everything succeeds, no recursion recorded. -/
def envBenign : OrchEnv :=
  { salvar_etapa := fun _ => .ok ()
  , salvar_erro := fun _ => .ok ()
  , service_status := .dict [("overall_health", .str "good")]
  , execute_components := .ok compHigh
  , execute_master := .ok (.dict [("master_analysis", .str "ok")])
  , execute_enhanced := .ok [("analise_psicologica", .str "ok")]
  , rec_table_after_components := []
  , timestamp := "2024-01-01T00:00:00"
  , elapsed := 42 }

/-- Environment where the component tier raises and the persistence
collaborator's error-record write raises too. -/
def envCriticalSaveFails : OrchEnv :=
  { salvar_etapa := fun _ => .ok ()
  , salvar_erro := fun _ => .error "PersistenceFailure"
  , service_status := .dict [("overall_health", .str "unknown")]
  , execute_components := .error "ComponentOrchestratorFailure"
  , execute_master := .ok (.dict [])
  , execute_enhanced := .ok []
  , rec_table_after_components := []
  , timestamp := "2024-01-01T00:00:00"
  , elapsed := 1 }

/-- Project the status tag out of an orchestration outcome (the raw
exception text on the error side). -/
def syncStatusOf (r : Except String SyncResult) : String :=
  match r with
  | .ok res => res.sync_status
  | .error e => e

/-- Counterexample to C2 as stated: (i) when the component tier raises and
the unguarded `salvar_erro` at line 308 also raises, the raw persistence
exception propagates to the caller — "never lets a raw exception propagate"
is false; (ii) the normal path's status tag is the literal
`PERFECT_SYNC_NO_RECURSION`, not the claimed `PERFECT_SYNC` (and the
emergency tag is `EMERGENCY_RECOVERY_NO_RECURSION`, not
`EMERGENCY_RECOVERY`). -/
theorem C2_counterexample :
    (execute_synchronized_analysis envCriticalSaveFails dataX "s1").1
      = .error "PersistenceFailure"
    ∧ syncStatusOf (execute_synchronized_analysis envBenign dataX "s1").1
      = "PERFECT_SYNC_NO_RECURSION" := by
  exact ⟨rfl, rfl⟩

/-- Witness for `C2_always_tier_tagged` at the benign environment. -/
theorem C2_always_tier_tagged_witness :
    (execute_synchronized_analysis envBenign dataX "s1").1.isOk = true := by
  obtain ⟨r, hr, _⟩ := C2_always_tier_tagged envBenign dataX "s1" rfl
  rw [hr]
  rfl

/-- C4: the enrichment tier (enhanced orchestrator) runs iff the global
recursion-depth table sums to zero when FASE 4 reads it (line 244-245); when
it runs it receives exactly the essential-fields-only view
`_clean_data_for_enhanced({**data, **final_results})` (lines 251–252); and if
it throws, the error is recorded and the run still returns the
`PERFECT_SYNC` result built from the results it already had (lines 258–260).
Hypotheses: the phases before it completed (initial checkpoint, component
tier, and — when the success rate is below 50 — the master tier). -/
theorem C4_refinement_iff_no_recursion (env : OrchEnv) (data : PyDict)
    (session_id : String) (comp : CompResults) (m : PyVal) (err : String)
    (hInit : env.salvar_etapa "super_orchestrator_iniciado" = .ok ())
    (hComp : env.execute_components = .ok comp)
    (hM : comp.success_rate < 50 → env.execute_master = .ok m) :
    ((execute_synchronized_analysis env data session_id).2.enhanced_calls
      = if recTableSum env.rec_table_after_components = 0
        then [clean_data_for_enhanced
          (dictUnion data (tier3WorkingResults env data session_id comp m))]
        else [])
    ∧ (recTableSum env.rec_table_after_components = 0 →
        env.execute_enhanced = .error err →
        env.salvar_erro "enhanced_orchestrator_error" = .ok () →
        env.salvar_etapa "relatorio_final_consolidado" = .ok () →
        (execute_synchronized_analysis env data session_id).1
          = .ok { success := true
                , session_id := session_id
                , sync_status := "PERFECT_SYNC_NO_RECURSION"
                , execution_time := some env.elapsed
                , report := some (consolidate_all_results_safe
                    (.dict (tier3WorkingResults env data session_id comp m))
                    env.service_status session_id env.timestamp)
                , component_success_rate := some comp.success_rate
                , total_components := some comp.successful_components.length
                , recursion_prevented := some 0 }) := by
  have htier : comp.success_rate < 50 ∨ ¬ comp.success_rate < 50 := em _
  constructor
  · by_cases hrate : comp.success_rate < 50
    · simp only [execute_synchronized_analysis, hInit, hComp, if_pos hrate, hM hrate,
        phase4Enhanced]
      by_cases h0 : recTableSum env.rec_table_after_components = 0
      · simp only [if_pos h0]
        cases he : env.execute_enhanced with
        | ok enh => rfl
        | error e =>
          cases hse : env.salvar_erro "enhanced_orchestrator_error" <;> rfl
      · simp only [if_neg h0]
    · simp only [execute_synchronized_analysis, hInit, hComp, if_neg hrate,
        phase4Enhanced]
      have htier3 : tier3WorkingResults env data session_id comp (.dict [])
          = tier3WorkingResults env data session_id comp m := by
        unfold tier3WorkingResults
        rw [if_neg hrate, if_neg hrate]
      rw [htier3]
      by_cases h0 : recTableSum env.rec_table_after_components = 0
      · simp only [if_pos h0]
        cases he : env.execute_enhanced with
        | ok enh => rfl
        | error e =>
          cases hse : env.salvar_erro "enhanced_orchestrator_error" <;> rfl
      · simp only [if_neg h0]
  · intro h0 he hse hsave
    by_cases hrate : comp.success_rate < 50
    · simp only [execute_synchronized_analysis, hInit, hComp, if_pos hrate, hM hrate,
        phase4Enhanced, if_pos h0, he, hse, finishSynchronized, hsave, h0, reduceIte]
    · have htier3 : tier3WorkingResults env data session_id comp (.dict [])
          = tier3WorkingResults env data session_id comp m := by
        unfold tier3WorkingResults
        rw [if_neg hrate, if_neg hrate]
      simp only [execute_synchronized_analysis, hInit, hComp, if_neg hrate,
        phase4Enhanced, if_pos h0, he, hse, finishSynchronized, hsave, h0, htier3,
        reduceIte]

/-- Environment in which only the enhanced orchestrator fails. -/
def envEnhancedFails : OrchEnv :=
  { envBenign with execute_enhanced := .error "EnhancedFailure" }

/-- Witness for `C4_refinement_iff_no_recursion`: no recursion recorded, the
enhanced tier is invoked exactly once and its failure does not fail the
run. -/
theorem C4_refinement_iff_no_recursion_witness :
    (execute_synchronized_analysis envEnhancedFails dataX "s1").2.enhanced_calls.length
      = 1
    ∧ (execute_synchronized_analysis envEnhancedFails dataX "s1").1.isOk = true := by
  obtain ⟨hcalls, hrun⟩ := C4_refinement_iff_no_recursion envEnhancedFails dataX "s1"
    compHigh (.dict []) "EnhancedFailure" rfl rfl (fun h => absurd h (by decide))
  refine ⟨?_, ?_⟩
  · rw [hcalls]
    rfl
  · rw [hrun rfl rfl rfl rfl]
    rfl

/-- C7: whenever the component tier's success rate is below 50%, the Master
strategy is invoked exactly once (line 228), on the sanitized copy
`_clean_data_for_master(data)` — every surviving entry has a
non-intermediate-result key and any dict value renders under 10000
characters — and its output is *combined* with the component-tier results:
both tiers are present in the working result set under their own keys,
neither replacing the other (lines 233–235, 784–794).  At a success rate of
at least 50% the Master strategy is not invoked. -/
theorem C7_escalation_master_tier (env : OrchEnv) (data : PyDict)
    (session_id : String) (comp : CompResults)
    (hInit : env.salvar_etapa "super_orchestrator_iniciado" = .ok ())
    (hComp : env.execute_components = .ok comp) :
    (comp.success_rate < 50 →
      (execute_synchronized_analysis env data session_id).2.master_calls
        = [clean_data_for_master data]
      ∧ ∀ m, env.execute_master = .ok m →
          pyGet (tier3WorkingResults env data session_id comp m)
              "component_orchestrator_results" = some comp.payload
          ∧ pyGet (tier3WorkingResults env data session_id comp m)
              "master_orchestrator_results" = some m)
    ∧ (50 ≤ comp.success_rate →
        (execute_synchronized_analysis env data session_id).2.master_calls = [])
    ∧ ∀ p ∈ clean_data_for_master data, isRecursionSourceKey p.1 = false
        ∧ ∀ d, p.2 = PyVal.dict d → pyReprLen p.2 < 10000 := by
  refine ⟨?_, ?_, ?_⟩
  · intro hrate
    constructor
    · simp only [execute_synchronized_analysis, hInit, hComp, if_pos hrate]
      cases hm : env.execute_master with
      | error e => rfl
      | ok m => rfl
    · intro m _
      unfold tier3WorkingResults
      rw [if_pos hrate]
      exact ⟨rfl, rfl⟩
  · intro hrate
    have hrate' : ¬ comp.success_rate < 50 := not_lt.mpr hrate
    simp only [execute_synchronized_analysis, hInit, hComp, if_neg hrate']
  · intro p hp
    have hmem := List.mem_filter.mp hp
    have hkeep := hmem.2
    unfold keepForMaster at hkeep
    by_cases hk : isRecursionSourceKey p.1
    · rw [if_pos hk] at hkeep
      exact absurd hkeep (by simp)
    · rw [if_neg hk] at hkeep
      refine ⟨by simpa using hk, ?_⟩
      intro d hd
      rw [hd] at hkeep ⊢
      simpa using hkeep

/-- Low-success component-tier outcome (30% success rate). -/
def compLow : CompResults :=
  { success_rate := 30
  , successful_components := ["web_search"]
  , payload := .dict [("successful_components", .list [.str "web_search"])] }

/-- Environment where the component tier ends below the 50% threshold. -/
def envLowRate : OrchEnv :=
  { envBenign with execute_components := .ok compLow }

/-- Witness for `C7_escalation_master_tier` at a concrete below-threshold
run: the Master tier is called exactly once with the sanitized input, and
the combined working results carry both tiers. -/
theorem C7_escalation_master_tier_witness :
    (execute_synchronized_analysis envLowRate dataX "s1").2.master_calls
      = [clean_data_for_master dataX]
    ∧ pyGet (tier3WorkingResults envLowRate dataX "s1" compLow
        (.dict [("master_analysis", .str "ok")])) "master_orchestrator_results"
      = some (.dict [("master_analysis", .str "ok")]) := by
  obtain ⟨hlow, _, _⟩ := C7_escalation_master_tier envLowRate dataX "s1" compLow rfl rfl
  obtain ⟨hcalls, hboth⟩ := hlow (by decide)
  exact ⟨hcalls, (hboth _ rfl).2⟩

/-! ## Sequential-thinking manager -/

/-- Generic Python-dict assignment (`d[k] = v`) on association lists. -/
def alistSet {α : Type} (d : List (String × α)) (k : String) (v : α) :
    List (String × α) :=
  if d.any (fun p => p.1 = k) then
    d.map (fun p => if p.1 = k then (k, v) else p)
  else
    d ++ [(k, v)]

/-- Generic Python-dict lookup on association lists. -/
def alistGet {α : Type} (d : List (String × α)) (k : String) : Option α :=
  match d.find? (fun p => p.1 = k) with
  | some p => some p.2
  | none => none

theorem alist_find_set_mem {α : Type} (k : String) (v : α) :
    ∀ d : List (String × α), d.any (fun p => p.1 = k) = true →
      (d.map (fun p => if p.1 = k then (k, v) else p)).find? (fun p => p.1 = k)
        = some (k, v)
  | [], h => by simp at h
  | p :: t, h => by
    by_cases hp : p.1 = k
    · simp [hp, List.find?]
    · have ht : t.any (fun p => p.1 = k) = true := by
        simp only [List.any_cons, Bool.or_eq_true, decide_eq_true_eq] at h
        rcases h with h | h
        · exact absurd h hp
        · exact h
      simpa [hp, List.find?] using alist_find_set_mem k v t ht

theorem alistGet_alistSet_self {α : Type} (d : List (String × α)) (k : String)
    (v : α) : alistGet (alistSet d k v) k = some v := by
  unfold alistSet alistGet
  by_cases h : d.any (fun p => p.1 = k)
  · rw [if_pos h, alist_find_set_mem k v d h]
  · rw [if_neg h, List.find?_append]
    have hn : d.find? (fun p => decide (p.1 = k)) = none := by
      rw [List.find?_eq_none]
      intro x hx hdec
      exact h (List.any_eq_true.mpr ⟨x, hx, hdec⟩)
    rw [hn]
    simp [List.find?]

/-- One step of a thinking framework (the dicts of lines 212–279 etc.). -/
structure ThinkingStep where
  step : Nat
  name : String
  description : String
  questions : List String
  expected_output : String
  deriving Repr, DecidableEq

/-- Char-list prefix test (structural, so that concrete prompts evaluate in
the kernel). -/
def leadsWith : List Char → List Char → Bool
  | [], _ => true
  | _ :: _, [] => false
  | a :: as, b :: bs => a == b && leadsWith as bs

/-- Char-list substring test. -/
def subOf (needle : List Char) : List Char → Bool
  | [] => leadsWith needle []
  | c :: rest => leadsWith needle (c :: rest) || subOf needle rest

/-- Python `word in string` (substring containment), on the character
lists. -/
def pyIn (needle hay : String) : Bool :=
  subOf needle.data hay.data

/-- `_identify_problem_type` (lines 197–208).  `prompt.lower()` is modelled
by mapping `Char.toLower` over the characters. -/
def identify_problem_type (prompt : String) : String :=
  let p := String.mk (prompt.data.map Char.toLower)
  if ["mercado", "market", "tendencia", "trend"].any (fun w => pyIn w p) then
    "market_analysis"
  else if ["concorrente", "competitor", "competição"].any (fun w => pyIn w p) then
    "competitor_analysis"
  else if ["conteúdo", "content", "marketing", "estratégia"].any (fun w => pyIn w p) then
    "content_strategy"
  else
    "general_analysis"

/-- `_market_analysis_framework` (lines 210–279). -/
def market_analysis_framework (_prompt : String) (_context : Ctx) :
    List ThinkingStep :=
  [ { step := 1, name := "Definição do Escopo"
    , description := "Definir claramente o mercado e segmento a ser analisado"
    , questions :=
        [ "Qual é o mercado específico?", "Qual é o público-alvo?"
        , "Qual é o segmento geográfico?" ]
    , expected_output := "Escopo bem definido do mercado" }
  , { step := 2, name := "Análise de Tamanho"
    , description := "Determinar o tamanho e potencial do mercado"
    , questions :=
        [ "Qual é o TAM (Total Addressable Market)?"
        , "Qual é o SAM (Serviceable Addressable Market)?"
        , "Qual é o SOM (Serviceable Obtainable Market)?" ]
    , expected_output := "Métricas de tamanho do mercado" }
  , { step := 3, name := "Análise de Tendências"
    , description := "Identificar tendências atuais e futuras"
    , questions :=
        [ "Quais são as principais tendências?", "O que está crescendo/declinando?"
        , "Quais fatores impulsionam mudanças?" ]
    , expected_output := "Mapa de tendências relevantes" }
  , { step := 4, name := "Análise Competitiva"
    , description := "Mapear o cenário competitivo"
    , questions :=
        [ "Quem são os principais players?", "Qual é a participação de mercado?"
        , "Quais são as barreiras de entrada?" ]
    , expected_output := "Landscape competitivo" }
  , { step := 5, name := "Oportunidades e Ameaças"
    , description := "Identificar oportunidades e riscos"
    , questions :=
        [ "Onde estão as oportunidades não exploradas?"
        , "Quais são os principais riscos?", "Como mitigar ameaças?" ]
    , expected_output := "Matriz de oportunidades e ameaças" }
  , { step := 6, name := "Síntese e Recomendações"
    , description := "Consolidar insights e criar plano de ação"
    , questions :=
        [ "Quais são os principais insights?", "Qual é a estratégia recomendada?"
        , "Quais são os próximos passos?" ]
    , expected_output := "Estratégia e plano de ação" } ]

/-- `_competitor_analysis_framework` (lines 281–350). -/
def competitor_analysis_framework (_prompt : String) (_context : Ctx) :
    List ThinkingStep :=
  [ { step := 1, name := "Identificação de Concorrentes"
    , description := "Mapear concorrentes diretos e indiretos"
    , questions :=
        [ "Quem são os concorrentes diretos?", "Quem são os concorrentes indiretos?"
        , "Quem são os novos entrantes?" ]
    , expected_output := "Lista completa de concorrentes" }
  , { step := 2, name := "Análise de Produtos/Serviços"
    , description := "Comparar ofertas dos concorrentes"
    , questions :=
        [ "Quais produtos/serviços oferecem?", "Qual é a proposta de valor?"
        , "Quais são os diferenciais?" ]
    , expected_output := "Matriz comparativa de ofertas" }
  , { step := 3, name := "Análise de Preços"
    , description := "Comparar estratégias de precificação"
    , questions :=
        [ "Qual é a estratégia de preços?", "Como se posicionam no mercado?"
        , "Qual é a relação custo-benefício?" ]
    , expected_output := "Análise competitiva de preços" }
  , { step := 4, name := "Análise de Marketing"
    , description := "Avaliar estratégias de marketing e comunicação"
    , questions :=
        [ "Quais canais de marketing usam?", "Qual é a mensagem principal?"
        , "Como é a presença digital?" ]
    , expected_output := "Benchmark de estratégias de marketing" }
  , { step := 5, name := "Pontos Fortes e Fracos"
    , description := "Identificar vantagens e vulnerabilidades"
    , questions :=
        [ "Quais são os pontos fortes de cada um?", "Onde estão as vulnerabilidades?"
        , "Que gaps existem no mercado?" ]
    , expected_output := "Matriz SWOT dos concorrentes" }
  , { step := 6, name := "Oportunidades de Diferenciação"
    , description := "Identificar como se diferenciar"
    , questions :=
        [ "Onde podemos nos diferenciar?", "Quais necessidades não atendidas?"
        , "Como superar os concorrentes?" ]
    , expected_output := "Estratégia de diferenciação" } ]

/-- `_content_strategy_framework` (lines 352–421). -/
def content_strategy_framework (_prompt : String) (_context : Ctx) :
    List ThinkingStep :=
  [ { step := 1, name := "Definição de Objetivos"
    , description := "Estabelecer objetivos claros para o conteúdo"
    , questions :=
        [ "Qual é o objetivo principal?", "Quais KPIs vamos medir?"
        , "Qual é o prazo esperado?" ]
    , expected_output := "Objetivos SMART definidos" }
  , { step := 2, name := "Análise de Audiência"
    , description := "Entender profundamente o público-alvo"
    , questions :=
        [ "Quem é o público-alvo?", "Quais são suas dores e desejos?"
        , "Onde consomem conteúdo?" ]
    , expected_output := "Personas detalhadas" }
  , { step := 3, name := "Auditoria de Conteúdo"
    , description := "Avaliar conteúdo existente"
    , questions :=
        [ "Que conteúdo já existe?", "O que está funcionando?"
        , "Que gaps precisam ser preenchidos?" ]
    , expected_output := "Inventário e análise de gaps" }
  , { step := 4, name := "Planejamento de Formatos"
    , description := "Definir tipos e formatos de conteúdo"
    , questions :=
        [ "Quais formatos são mais eficazes?", "Qual é a capacidade de produção?"
        , "Como distribuir entre os canais?" ]
    , expected_output := "Mix de formatos otimizado" }
  , { step := 5, name := "Calendário Editorial"
    , description := "Criar cronograma de publicações"
    , questions :=
        [ "Qual é a frequência ideal?", "Quando publicar cada tipo?"
        , "Como sincronizar com campanhas?" ]
    , expected_output := "Calendário editorial estruturado" }
  , { step := 6, name := "Métricas e Otimização"
    , description := "Definir sistema de monitoramento"
    , questions :=
        [ "Como medir o sucesso?", "Qual é o processo de otimização?"
        , "Como escalar o que funciona?" ]
    , expected_output := "Framework de medição e otimização" } ]

/-- `_general_thinking_framework` (lines 423–492). -/
def general_thinking_framework (_prompt : String) (_context : Ctx) :
    List ThinkingStep :=
  [ { step := 1, name := "Compreensão do Problema"
    , description := "Entender completamente o desafio"
    , questions :=
        [ "Qual é exatamente o problema?", "Por que isso é importante?"
        , "Quais são as limitações?" ]
    , expected_output := "Definição clara do problema" }
  , { step := 2, name := "Coleta de Informações"
    , description := "Reunir dados e insights relevantes"
    , questions :=
        [ "Que informações precisamos?", "Onde encontrar dados confiáveis?"
        , "Quais são as fontes primárias?" ]
    , expected_output := "Base de dados estruturada" }
  , { step := 3, name := "Análise e Síntese"
    , description := "Processar e conectar informações"
    , questions :=
        [ "Quais padrões emergem?", "Como os dados se relacionam?"
        , "Quais são as correlações?" ]
    , expected_output := "Insights e conexões identificadas" }
  , { step := 4, name := "Geração de Alternativas"
    , description := "Criar múltiplas soluções possíveis"
    , questions :=
        [ "Quais são as opções disponíveis?", "Como podemos abordar diferentemente?"
        , "Que soluções criativas existem?" ]
    , expected_output := "Leque de alternativas viáveis" }
  , { step := 5, name := "Avaliação de Opções"
    , description := "Comparar e avaliar alternativas"
    , questions :=
        [ "Quais são os prós e contras?", "Qual é o custo-benefício?"
        , "Quais são os riscos?" ]
    , expected_output := "Matriz de avaliação" }
  , { step := 6, name := "Recomendação Final"
    , description := "Escolher a melhor abordagem"
    , questions :=
        [ "Qual é a melhor opção?", "Como implementar?", "Como medir o sucesso?" ]
    , expected_output := "Plano de ação recomendado" } ]

/-- `_create_thinking_framework` (lines 182–195). -/
def create_thinking_framework (prompt : String) (context : Ctx) :
    List ThinkingStep :=
  let problem_type := identify_problem_type prompt
  if problem_type = "market_analysis" then market_analysis_framework prompt context
  else if problem_type = "competitor_analysis" then
    competitor_analysis_framework prompt context
  else if problem_type = "content_strategy" then
    content_strategy_framework prompt context
  else general_thinking_framework prompt context

/-- The per-process record kept in `self.active_processes` (lines 69–79). -/
structure ThinkingProcess where
  initial_prompt : String
  context : Ctx
  current_step : Nat
  total_steps : Nat
  thinking_framework : List ThinkingStep
  status : String
  insights : List (Nat × String × List String)
  reasoning_chain : List (Nat × String)
  deriving Repr, DecidableEq

/-- `self.active_processes`. -/
abbrev ProcTable := List (String × ThinkingProcess)

/-- A response of the external MCP backend (`_make_request`, lines 26–38;
it catches its own request errors and returns an error dict, so it never
raises). -/
structure MCPResponse where
  success : Bool
  error : Option String := none
  analysis : String := ""
  recommendations : List String := []
  reasoning : String := ""
  deriving Repr, DecidableEq

/-- The caller-facing dict of `start_thinking_process`. -/
structure StartResult where
  success : Bool := false
  error : Option String := none
  process_id : Option String := none
  estimated_duration : Option Nat := none
  deriving Repr, DecidableEq

/-- The caller-facing dict of `advance_thinking_step`. -/
structure AdvanceResult where
  success : Bool := false
  error : Option String := none
  process_id : Option String := none
  next_step : Option Nat := none
  analysis : String := ""
  reasoning : String := ""
  deriving Repr, DecidableEq

/-- `start_thinking_process` (lines 40–96): build the framework, call the
backend, and on a successful response register the process with
`current_step = 0` and `total_steps = len(thinking_steps)`.  The generated
process id (timestamp and hash, line 46) is an argument; the try/except
around the body converts any internal fault into an error dict, but every
embedded statement is total, so only the explicit error paths occur. -/
def start_thinking_process (enabled : Bool) (resp : MCPResponse)
    (procs : ProcTable) (process_id initial_prompt : String) (context : Ctx) :
    ProcTable × StartResult :=
  if ¬ enabled then
    (procs, { error := some "MCP Sequential Thinking desabilitado" })
  else
    let thinking_steps := create_thinking_framework initial_prompt context
    if resp.success then
      (alistSet procs process_id
        { initial_prompt := initial_prompt
        , context := context
        , current_step := 0
        , total_steps := thinking_steps.length
        , thinking_framework := thinking_steps
        , status := "active"
        , insights := []
        , reasoning_chain := [] },
       { success := true
       , process_id := some process_id
       , estimated_duration := some (thinking_steps.length * 30) })
    else
      (procs, { error := some (resp.error.getD "Erro ao iniciar processo") })

/-- `advance_thinking_step` (lines 98–161): unknown process → error;
`current_step >= len(thinking_framework)` → error with the record untouched;
otherwise call the backend, and on success increment `current_step`, append
the insight and reasoning entries, and mark the process `completed` once
`current_step >= total_steps`; on a failed response mark it `failed`. -/
def advance_thinking_step (procs : ProcTable) (process_id : String)
    (resp : MCPResponse) (_user_input : Option String) :
    ProcTable × AdvanceResult :=
  match alistGet procs process_id with
  | none => (procs, { error := some "Processo não encontrado ou já finalizado." })
  | some p =>
    if p.thinking_framework.length ≤ p.current_step then
      (procs, { error := some "Processo já atingiu o número máximo de etapas." })
    else if resp.success then
      let new_step := p.current_step + 1
      let p1 := { p with
        current_step := new_step
      , insights := p.insights ++ [(new_step, resp.analysis, resp.recommendations)]
      , reasoning_chain := p.reasoning_chain ++ [(new_step, resp.reasoning)] }
      let p2 := if p1.total_steps ≤ p1.current_step then
          { p1 with status := "completed" } else p1
      (alistSet procs process_id p2,
       { success := true
       , process_id := some process_id
       , next_step := some (new_step + 1)
       , analysis := resp.analysis
       , reasoning := resp.reasoning })
    else
      (alistSet procs process_id { p with status := "failed" },
       { error := some (resp.error.getD "Erro ao avançar passo")
       , process_id := some process_id })

/-- C10: `current_step` never exceeds `total_steps` for a tracked process:
(i) `start_thinking_process` registers a process with `current_step = 0` and
`total_steps` equal to its framework's length; (ii) at the ceiling
(`current_step >= len(thinking_framework)`), `advance_thinking_step` returns
an error result and leaves the table unchanged; (iii) advancing preserves
`current_step ≤ total_steps = len(thinking_framework)`; (iv) `current_step`
is incremented (by exactly one) only when it is strictly below the framework
length. -/
theorem C10_current_step_bounded (procs : ProcTable) (process_id : String)
    (resp : MCPResponse) (user_input : Option String) (p : ThinkingProcess)
    (hget : alistGet procs process_id = some p)
    (hcs : p.current_step ≤ p.total_steps)
    (hts : p.total_steps = p.thinking_framework.length) :
    (∀ (sresp : MCPResponse) (procs0 : ProcTable) (pid prompt : String)
        (ctx : Ctx) (p0 : ThinkingProcess),
      sresp.success = true →
      alistGet (start_thinking_process true sresp procs0 pid prompt ctx).1 pid
        = some p0 →
      p0.current_step = 0 ∧ p0.total_steps = p0.thinking_framework.length)
    ∧ (p.thinking_framework.length ≤ p.current_step →
        (advance_thinking_step procs process_id resp user_input).1 = procs
        ∧ (advance_thinking_step procs process_id resp user_input).2.success = false
        ∧ (advance_thinking_step procs process_id resp user_input).2.error.isSome
            = true)
    ∧ (∀ p', alistGet (advance_thinking_step procs process_id resp user_input).1
          process_id = some p' →
        p'.current_step ≤ p'.total_steps
        ∧ p'.total_steps = p'.thinking_framework.length)
    ∧ (p.current_step < p.thinking_framework.length → resp.success = true →
        ∀ p', alistGet (advance_thinking_step procs process_id resp user_input).1
            process_id = some p' →
        p'.current_step = p.current_step + 1) := by
  refine ⟨?_, ?_, ?_, ?_⟩
  · intro sresp procs0 pid prompt ctx p0 hs hgot
    unfold start_thinking_process at hgot
    rw [if_neg (by simp), if_pos hs, alistGet_alistSet_self] at hgot
    simp only [Option.some.injEq] at hgot
    rw [← hgot]
    exact ⟨rfl, rfl⟩
  · intro hceil
    unfold advance_thinking_step
    rw [hget]
    dsimp only
    rw [if_pos hceil]
    exact ⟨rfl, rfl, rfl⟩
  · intro p' hp'
    unfold advance_thinking_step at hp'
    rw [hget] at hp'
    dsimp only at hp'
    by_cases hceil : p.thinking_framework.length ≤ p.current_step
    · rw [if_pos hceil] at hp'
      dsimp only at hp'
      rw [hget] at hp'
      simp only [Option.some.injEq] at hp'
      rw [← hp']
      exact ⟨hcs, hts⟩
    · rw [if_neg hceil] at hp'
      by_cases hrs : resp.success = true
      · rw [if_pos hrs] at hp'
        dsimp only at hp'
        rw [alistGet_alistSet_self] at hp'
        simp only [Option.some.injEq] at hp'
        rw [← hp']
        have hlt : p.current_step < p.thinking_framework.length := by omega
        by_cases hdone : p.total_steps ≤ p.current_step + 1 <;>
          simp only [hdone, if_true, if_false, reduceIte] <;>
          exact ⟨by omega, hts⟩
      · rw [if_neg hrs] at hp'
        dsimp only at hp'
        rw [alistGet_alistSet_self] at hp'
        simp only [Option.some.injEq] at hp'
        rw [← hp']
        exact ⟨hcs, hts⟩
  · intro hlt hrs p' hp'
    unfold advance_thinking_step at hp'
    rw [hget] at hp'
    dsimp only at hp'
    rw [if_neg (by omega), if_pos hrs] at hp'
    dsimp only at hp'
    rw [alistGet_alistSet_self] at hp'
    simp only [Option.some.injEq] at hp'
    rw [← hp']
    by_cases hdone : p.total_steps ≤ p.current_step + 1 <;>
      simp only [hdone, if_true, if_false, reduceIte]

/-- A table holding one freshly started market-analysis process. -/
def procsW : ProcTable :=
  (start_thinking_process true { success := true } [] "st_1"
    "Como analisar o mercado brasileiro?" []).1

/-- Junk default used only to project known-present lookups. -/
def defaultThinkingProcess : ThinkingProcess :=
  { initial_prompt := "", context := [], current_step := 0, total_steps := 0
  , thinking_framework := [], status := "", insights := [], reasoning_chain := [] }

/-- The registered process of `procsW`. -/
def procW : ThinkingProcess := (alistGet procsW "st_1").getD defaultThinkingProcess

/-- The process after one successful advance. -/
def procAdvW : ThinkingProcess :=
  (alistGet (advance_thinking_step procsW "st_1" { success := true } none).1
    "st_1").getD defaultThinkingProcess

/-- Witness for `C10_current_step_bounded`: at the concrete freshly-started
process, one successful advance keeps the invariant. -/
theorem C10_current_step_bounded_witness :
    procAdvW.current_step ≤ procAdvW.total_steps
    ∧ procAdvW.total_steps = procAdvW.thinking_framework.length := by
  have h := C10_current_step_bounded procsW "st_1" { success := true } none procW
    (by rfl) (by decide) (by decide)
  exact h.2.2.1 procAdvW (by rfl)
